import Mathlib

/-!
Verification development for the TalentScout hiring-assistant repository.

The definitions below are a shallow embedding of the Python sources
(`app.py`, `translations.py`, `database.py`): the candidate-profile data
model, the heuristic regex extractors, the LLM-result merge, the JSON
extraction used for technical-question generation, and the per-turn
conversation step driven by `main`.  Python truthiness on optional strings
(None and the empty string both count as unset) is modelled explicitly.
-/

namespace TalentScout

/-- Python str.lower; the app only lowercases ASCII keyword/message text
(Char.toLower maps exactly the ASCII uppercase range). -/
def pyLower (s : String) : String := String.mk (s.data.map Char.toLower)

/-- Python str.strip with no argument: whitespace removed from both ends. -/
def pyStrip (s : String) : String :=
  String.mk (((s.data.dropWhile Char.isWhitespace).reverse.dropWhile
    Char.isWhitespace).reverse)

/-- Test whether the first list is an initial segment of the second. -/
def leads : List Char → List Char → Bool
  | [], _ => true
  | _ :: _, [] => false
  | a :: as, b :: bs => a == b && leads as bs

/-- Python substring membership, as in keyword in message. -/
def containsSub (hay needle : String) : Bool :=
  (List.range (hay.data.length + 1)).any (fun i => leads needle.data (hay.data.drop i))

/-- Accumulator loop behind pySplit. -/
def splitWsAux : List Char → List Char → List String
  | [], acc => if acc.isEmpty then [] else [String.mk acc.reverse]
  | c :: cs, acc =>
      if c.isWhitespace then
        if acc.isEmpty then splitWsAux cs []
        else String.mk acc.reverse :: splitWsAux cs []
      else splitWsAux cs (c :: acc)

/-- Python str.split with no argument: split on whitespace runs, dropping
empty pieces. -/
def pySplit (s : String) : List String := splitWsAux s.data []

/-- Tokens of the small regular-expression fragment the app uses: a literal
character, an optional character from a class, and a counted repetition of a
character class (hi = none meaning unbounded). -/
inductive RTok where
  | lit (c : Char)
  | optc (p : Char → Bool)
  | reps (p : Char → Bool) (lo : Nat) (hi : Option Nat)

/-- Backtracking matcher: all (matched-prefix, rest) pairs for a token list
against an input, in the order a greedy regex engine would try them (for
optional items the present alternative first, for repetitions the longest
count first). -/
def rmatch : List RTok → List Char → List (List Char × List Char)
  | [], cs => [([], cs)]
  | RTok.lit _ :: _, [] => []
  | RTok.lit c :: ts, d :: cs =>
      if d == c then (rmatch ts cs).map (fun pr => (d :: pr.1, pr.2)) else []
  | RTok.optc p :: ts, cs =>
      (match cs with
        | d :: cs' =>
            if p d then (rmatch ts cs').map (fun pr => (d :: pr.1, pr.2)) else []
        | [] => []) ++ rmatch ts cs
  | RTok.reps p lo hi :: ts, cs =>
      let run := (cs.takeWhile p).length
      let top := match hi with | some h => min h run | none => run
      if top < lo then []
      else ((List.range (top + 1 - lo)).map (fun i =>
        let k := top - i
        (rmatch ts (cs.drop k)).map (fun pr => (cs.take k ++ pr.1, pr.2)))).flatten

/-- First match of a pattern, scanning start positions left to right as
re.search does. -/
def rsearchAux (ts : List RTok) : List Char → Option (List Char)
  | [] => ((rmatch ts []).head?).map Prod.fst
  | c :: cs =>
      match (rmatch ts (c :: cs)).head? with
      | some pr => some pr.1
      | none => rsearchAux ts cs

/-- re.search returning the matched substring. -/
def rsearch (ts : List RTok) (s : String) : Option String :=
  (rsearchAux ts s.data).map (fun l => String.mk l)

/-- Character class of the email local part: [A-Za-z0-9._%+-]. -/
def isLocalChar (c : Char) : Bool :=
  c.isAlpha || c.isDigit || c == '.' || c == '_' || c == '%' || c == '+' || c == '-'

/-- Character class of the email domain: [A-Za-z0-9.-]. -/
def isDomainChar (c : Char) : Bool :=
  c.isAlpha || c.isDigit || c == '.' || c == '-'

/-- Character class of the email suffix, [A-Z|a-z] in the source (the class
literally includes the bar character). -/
def isTldChar (c : Char) : Bool := c.isAlpha || c == '|'

/-- Email pattern from extract_candidate_info; the word-boundary anchors of
the source pattern are not modelled (every use in this development is on
messages where they cannot change the outcome, in particular messages with
no at-sign never match). -/
def email_pattern : List RTok :=
  [RTok.reps isLocalChar 1 none, RTok.lit '@', RTok.reps isDomainChar 1 none,
   RTok.lit '.', RTok.reps isTldChar 2 none]

/-- First email match in a message, as the regex pass of
extract_candidate_info computes it. -/
def email_search (s : String) : Option String := rsearch email_pattern s

/-- Separator class [-\s.] used inside the phone pattern. -/
def isSepChar (c : Char) : Bool := c == '-' || c.isWhitespace || c == '.'

/-- Phone pattern from extract_candidate_info, token for token. -/
def phone_pattern : List RTok :=
  [RTok.optc (fun c => c == '+'), RTok.optc (fun c => c == '('),
   RTok.reps Char.isDigit 1 (some 4), RTok.optc (fun c => c == ')'),
   RTok.optc isSepChar, RTok.optc (fun c => c == '('),
   RTok.reps Char.isDigit 1 (some 4), RTok.optc (fun c => c == ')'),
   RTok.optc isSepChar, RTok.reps Char.isDigit 1 (some 5),
   RTok.optc isSepChar, RTok.reps Char.isDigit 1 (some 5)]

/-- First phone match in a message. -/
def phone_search (s : String) : Option String := rsearch phone_pattern s

/-- Numeric value of a digit run (int() on the captured group). -/
def digitsToNat (l : List Char) : Nat :=
  l.foldl (fun acc c => acc * 10 + (c.toNat - ('0').toNat)) 0

/-- Years-of-experience pattern, long alternative: digits, whitespace,
then the word year with an optional s. -/
def years_pat_long : List RTok :=
  [RTok.reps Char.isDigit 1 none, RTok.reps Char.isWhitespace 0 none,
   RTok.lit 'y', RTok.lit 'e', RTok.lit 'a', RTok.lit 'r',
   RTok.optc (fun c => c == 's')]

/-- Years-of-experience pattern, short alternative: digits, whitespace,
then yr with an optional s. -/
def years_pat_short : List RTok :=
  [RTok.reps Char.isDigit 1 none, RTok.reps Char.isWhitespace 0 none,
   RTok.lit 'y', RTok.lit 'r', RTok.optc (fun c => c == 's')]

/-- Search both alternatives at each start position, long one first, and
return the captured digit group. -/
def yearsSearchAux : List Char → Option Nat
  | [] => none
  | c :: cs =>
      match ((rmatch years_pat_long (c :: cs)).head?).orElse
          (fun _ => (rmatch years_pat_short (c :: cs)).head?) with
      | some pr => some (digitsToNat (pr.1.takeWhile Char.isDigit))
      | none => yearsSearchAux cs

/-- Years extraction: the source applies the pattern to message.lower(). -/
def years_search (s : String) : Option Nat := yearsSearchAux (pyLower s).data

/-- Characters accepted by the short-name pattern [A-Za-z\s\-'] . -/
def isNameChar (c : Char) : Bool :=
  c.isAlpha || c.isWhitespace || c == '-' || c == Char.ofNat 39

/-- Full-string test for the short-name pattern (re.match anchored with $). -/
def matches_name_pattern (s : String) : Bool :=
  !s.data.isEmpty && s.data.all isNameChar

/-- Characters accepted by the short-location pattern [A-Za-z\s\-,.] . -/
def isLocationChar (c : Char) : Bool :=
  c.isAlpha || c.isWhitespace || c == '-' || c == ',' || c == '.'

/-- Full-string test for the short-location pattern. -/
def matches_location_pattern (s : String) : Bool :=
  !s.data.isEmpty && s.data.all isLocationChar

/-- Regex word characters for the word-boundary fallback search. -/
def isWordChar (c : Char) : Bool := c.isAlpha || c.isDigit || c == '_'

/-- Whole-word occurrence of word at index i of hay. -/
def wordMatchAt (hay word : List Char) (i : Nat) : Bool :=
  leads word (hay.drop i) &&
  (i == 0 || !isWordChar (hay.getD (i - 1) ' ')) &&
  (decide (hay.length ≤ i + word.length) || !isWordChar (hay.getD (i + word.length) ' '))

/-- re.search of a whole word with word boundaries on both sides. -/
def has_word (hay word : String) : Bool :=
  (List.range (hay.data.length + 1)).any (fun i => wordMatchAt hay.data word.data i)

/-- Job-role keyword list used by the name and location short-answer checks. -/
def position_keywords : List String :=
  ["tester", "developer", "engineer", "analyst", "manager", "designer",
   "architect", "consultant", "specialist", "lead", "programmer",
   "administrator", "devops", "qa", "scientist", "intern", "associate"]

/-- Identical keyword list repeated in the position-fallback branch of
extract_candidate_info. -/
def position_indicators : List String := position_keywords

/-- End-of-conversation keywords of ConversationHandler. -/
def end_keywords : List String := ["exit", "quit", "stop", "bye", "goodbye", "cancel"]

/-- Update-intent keywords checked in the technical-questions phase. -/
def update_keywords : List String := ["update", "change", "modify", "correct", "edit"]

/-- Info keywords checked together with the update-intent keywords. -/
def info_keywords : List String :=
  ["location", "email", "phone", "name", "position", "tech stack"]

/-- Candidate profile, mirroring the CandidateInfo dataclass. -/
structure CandidateInfo where
  full_name : Option String
  email : Option String
  phone : Option String
  years_experience : Option Int
  desired_positions : List String
  current_location : Option String
  tech_stack : List String
deriving Repr, DecidableEq

/-- Fresh profile as produced by CandidateInfo() with its post-init lists. -/
def emptyCandidateInfo : CandidateInfo :=
  ⟨none, none, none, none, [], none, []⟩

/-- Python truthiness of an optional string: None and the empty string are
both falsy. -/
def truthyStr : Option String → Bool
  | none => false
  | some s => !(s == "")

/-- CandidateInfo.is_complete: Python all() over the seven entries, using
truthiness for the string fields and the lists, and an explicit
is-not-None test for years_experience. -/
def CandidateInfo.is_complete (c : CandidateInfo) : Bool :=
  truthyStr c.full_name && truthyStr c.email && truthyStr c.phone &&
  c.years_experience.isSome && !c.desired_positions.isEmpty &&
  truthyStr c.current_location && !c.tech_stack.isEmpty

/-- ConversationHandler.should_end_conversation: any end keyword occurring
as a substring of the lowercased message. -/
def should_end_conversation (message : String) : Bool :=
  end_keywords.any (fun k => containsSub (pyLower message) k)

/-- Shape of a field of the LLM-extraction JSON that the merge treats as
either a bare string or a list of strings (desired_positions, tech_stack). -/
inductive StrOrList where
  | str (s : String)
  | list (l : List String)
deriving Repr, DecidableEq

/-- Python truthiness of such a field value. -/
def StrOrList.truthy : StrOrList → Bool
  | StrOrList.str s => !(s == "")
  | StrOrList.list l => !l.isEmpty

/-- Typed content of the JSON object the LLM extraction call returned, as
extract_candidate_info reads it with .get: each key absent-or-null is none;
years_experience is some none when present but not castable by int(), and
some (some n) when int() yields n. -/
structure Extracted where
  full_name : Option String
  email : Option String
  phone : Option String
  years_experience : Option (Option Int)
  desired_positions : Option StrOrList
  current_location : Option String
  tech_stack : Option StrOrList
deriving Repr, DecidableEq

/-- An extraction result with every key absent. -/
def emptyExtracted : Extracted := ⟨none, none, none, none, none, none, none⟩

/-- Email block of extract_candidate_info: first regex match, accepted only
when the profile's email is not yet truthy. -/
def he_email (message : String) (ci : CandidateInfo) : CandidateInfo :=
  match email_search message with
  | some m => if !truthyStr ci.email then {ci with email := some m} else ci
  | none => ci

/-- Phone block: first regex match, accepted only when unset and at least
10 characters long. -/
def he_phone (message : String) (ci : CandidateInfo) : CandidateInfo :=
  match phone_search message with
  | some m =>
      if !truthyStr ci.phone && decide (10 ≤ m.length) then
        {ci with phone := some m}
      else ci
  | none => ci

/-- Years-of-experience block: regex on the lowered message, accepted only
when years_experience is still None. -/
def he_years (message : String) (ci : CandidateInfo) : CandidateInfo :=
  match years_search message, ci.years_experience with
  | some n, none => {ci with years_experience := some (Int.ofNat n)}
  | _, _ => ci

/-- Short-message name block: at most three tokens, the trimmed message
matching the name pattern, and the trimmed message not itself one of the
role keywords. -/
def he_name (message : String) (ci : CandidateInfo) : CandidateInfo :=
  if !truthyStr ci.full_name && decide ((pySplit message).length ≤ 3) then
    if matches_name_pattern (pyStrip message) then
      let potential_name := pyStrip message
      if !(position_keywords.contains (pyLower potential_name)) then
        {ci with full_name := some potential_name}
      else ci
    else ci
  else ci

/-- Short-message location block: at most three tokens matching the
location pattern, not a role keyword, different from the (possibly just
set) full name, and with at most one other field still missing. -/
def he_location (message : String) (ci : CandidateInfo) : CandidateInfo :=
  if !truthyStr ci.current_location && decide ((pySplit message).length ≤ 3) then
    if matches_location_pattern (pyStrip message) then
      let potential_location := pyStrip message
      if !(position_keywords.contains (pyLower potential_location)) &&
          !(ci.full_name == some potential_location) then
        let missing_fields : List String :=
          (if !truthyStr ci.full_name then ["name"] else []) ++
          (if !truthyStr ci.email then ["email"] else []) ++
          (if !truthyStr ci.phone then ["phone"] else []) ++
          (if ci.years_experience.isNone then ["experience"] else []) ++
          (if ci.desired_positions.isEmpty then ["positions"] else []) ++
          (if ci.tech_stack.isEmpty then ["tech"] else [])
        if decide (missing_fields.length ≤ 1) then
          {ci with current_location := some potential_location}
        else ci
      else ci
    else ci
  else ci

/-- Regex/heuristic first pass of ConversationHandler.extract_candidate_info
(everything before the LLM call), in source order: email, phone, years of
experience, short-message name, short-message location. -/
def heuristic_extract (message : String) (ci : CandidateInfo) : CandidateInfo :=
  he_location message (he_name message (he_years message (he_phone message
    (he_email message ci))))

/-- Full-name entry of the LLM merge (the `if extracted:` block): written
only when the extracted value is truthy and the current one is not. -/
def lm_full_name (ex : Extracted) (ci : CandidateInfo) : CandidateInfo :=
  match ex.full_name with
  | some v =>
      if !(v == "") && !truthyStr ci.full_name then {ci with full_name := some v}
      else ci
  | none => ci

/-- Email entry of the LLM merge. -/
def lm_email (ex : Extracted) (ci : CandidateInfo) : CandidateInfo :=
  match ex.email with
  | some v => if !(v == "") && !truthyStr ci.email then {ci with email := some v} else ci
  | none => ci

/-- Phone entry of the LLM merge. -/
def lm_phone (ex : Extracted) (ci : CandidateInfo) : CandidateInfo :=
  match ex.phone with
  | some v => if !(v == "") && !truthyStr ci.phone then {ci with phone := some v} else ci
  | none => ci

/-- Years entry of the LLM merge: present and non-null, current still None,
and int() succeeding. -/
def lm_years (ex : Extracted) (ci : CandidateInfo) : CandidateInfo :=
  match ex.years_experience, ci.years_experience with
  | some (some n), none => {ci with years_experience := some n}
  | _, _ => ci

/-- Desired-positions entry of the LLM merge: a list batch is filtered
against the lowercased snapshot of the existing list taken once before the
loop (as the source does), a bare string against the current list. -/
def lm_positions (ex : Extracted) (ci : CandidateInfo) : CandidateInfo :=
  match ex.desired_positions with
  | some sl =>
      if sl.truthy then
        match sl with
        | StrOrList.list ps =>
            let existing_lower := ci.desired_positions.map pyLower
            {ci with desired_positions := ci.desired_positions ++
              ps.filter (fun p => !(existing_lower.contains (pyLower p)))}
        | StrOrList.str p =>
            if (ci.desired_positions.map pyLower).contains (pyLower p) then ci
            else {ci with desired_positions := ci.desired_positions ++ [p]}
      else ci
  | none => ci

/-- Location entry of the LLM merge. -/
def lm_location (ex : Extracted) (ci : CandidateInfo) : CandidateInfo :=
  match ex.current_location with
  | some v =>
      if !(v == "") && !truthyStr ci.current_location then
        {ci with current_location := some v}
      else ci
  | none => ci

/-- Tech-stack entry of the LLM merge, like the desired-positions entry. -/
def lm_tech (ex : Extracted) (ci : CandidateInfo) : CandidateInfo :=
  match ex.tech_stack with
  | some sl =>
      if sl.truthy then
        match sl with
        | StrOrList.list ts =>
            let existing_lower := ci.tech_stack.map pyLower
            {ci with tech_stack := ci.tech_stack ++
              ts.filter (fun t => !(existing_lower.contains (pyLower t)))}
        | StrOrList.str t =>
            if (ci.tech_stack.map pyLower).contains (pyLower t) then ci
            else {ci with tech_stack := ci.tech_stack ++ [t]}
      else ci
  | none => ci

/-- Merge of the parsed LLM JSON into the profile, entry by entry in the
source's order; none stands for a response with no parseable JSON object,
which merges nothing. -/
def llm_merge (extracted : Option Extracted) (ci : CandidateInfo) : CandidateInfo :=
  match extracted with
  | none => ci
  | some ex =>
      lm_tech ex (lm_location ex (lm_positions ex (lm_years ex (lm_phone ex
        (lm_email ex (lm_full_name ex ci))))))

/-- Position-keyword fallback at the end of extract_candidate_info: only
when the profile still has no desired position and no full name, and a
role keyword occurs as a whole word, the whole trimmed message (nonempty,
under 50 characters) is appended as a position. -/
def position_fallback (message : String) (ci : CandidateInfo) : CandidateInfo :=
  if ci.desired_positions.isEmpty && !truthyStr ci.full_name then
    match position_indicators.find? (fun ind => has_word (pyLower message) ind) with
    | some _ =>
        let position_to_add := pyStrip message
        if !(position_to_add == "") && decide (position_to_add.length < 50) then
          {ci with desired_positions := ci.desired_positions ++ [position_to_add]}
        else ci
    | none => ci
  else ci

/-- ConversationHandler.extract_candidate_info: the heuristic pass, then the
LLM-result merge, then the position-keyword fallback, in source order. -/
def extract_candidate_info (message : String) (extracted : Option Extracted)
    (ci : CandidateInfo) : CandidateInfo :=
  position_fallback message (llm_merge extracted (heuristic_extract message ci))

/-- ConversationHandler.get_missing_info, in the source's fixed order. -/
def get_missing_info (c : CandidateInfo) : List String :=
  (if !truthyStr c.full_name then ["full name"] else []) ++
  (if !truthyStr c.email then ["email address"] else []) ++
  (if !truthyStr c.phone then ["phone number"] else []) ++
  (if c.years_experience.isNone then ["years of experience"] else []) ++
  (if c.desired_positions.isEmpty then ["desired position(s)"] else []) ++
  (if !truthyStr c.current_location then ["current location"] else []) ++
  (if c.tech_stack.isEmpty then ["tech stack"] else [])

/-- JSON values as json.loads produces them.  Integral numbers are kept as
Int; any other numeral json.loads accepts (floats, exponent forms, and the
non-standard NaN/Infinity constants it parses by default) is kept as its
literal text, since the app never computes with such values. -/
inductive Json where
  | null
  | bool (b : Bool)
  | num (n : Int)
  | decimal (lit : String)
  | str (s : String)
  | arr (elems : List Json)
  | obj (fields : List (String × Json))
deriving Repr

/-- Opening brace character. -/
def lbrace : Char := Char.ofNat 123

/-- Closing brace character. -/
def rbrace : Char := Char.ofNat 125

/-- JSON whitespace. -/
def skipWs (cs : List Char) : List Char :=
  cs.dropWhile (fun c => c == ' ' || c == '\n' || c == '\t' || c == '\r')

/-- Value of one hexadecimal digit, as the uXXXX string escape reads it. -/
def hexVal (c : Char) : Option Nat :=
  if c.isDigit then some (c.toNat - Char.toNat '0')
  else if decide ('a' ≤ c) && decide (c ≤ 'f') then some (c.toNat - Char.toNat 'a' + 10)
  else if decide ('A' ≤ c) && decide (c ≤ 'F') then some (c.toNat - Char.toNat 'A' + 10)
  else none

/-- Body of a JSON string literal after the opening quote, with the escape
set json.loads accepts in strict mode: quote, backslash, slash, b, f, n, r,
t and uXXXX; an unknown escape or a raw control character below 0x20 fails
the parse, as json.loads fails.  (A uXXXX escape naming a lone surrogate,
which Python would keep, maps to the replacement of Char.ofNat; no payload
evaluated below contains one.)  Fuel-indexed; each step consumes at least
one character, so the wrapper's fuel of length + 1 never runs out. -/
def parseStrBodyF : Nat → List Char → List Char → Option (String × List Char)
  | 0, _, _ => none
  | Nat.succ fuel, cs, acc =>
    match cs with
    | [] => none
    | c :: cs1 =>
      if c == Char.ofNat 34 then some (String.mk acc.reverse, cs1)
      else if c == Char.ofNat 92 then
        match cs1 with
        | [] => none
        | d :: cs2 =>
          if d == Char.ofNat 34 then parseStrBodyF fuel cs2 (Char.ofNat 34 :: acc)
          else if d == Char.ofNat 92 then parseStrBodyF fuel cs2 (Char.ofNat 92 :: acc)
          else if d == '/' then parseStrBodyF fuel cs2 ('/' :: acc)
          else if d == 'b' then parseStrBodyF fuel cs2 (Char.ofNat 8 :: acc)
          else if d == 'f' then parseStrBodyF fuel cs2 (Char.ofNat 12 :: acc)
          else if d == 'n' then parseStrBodyF fuel cs2 ('\n' :: acc)
          else if d == 'r' then parseStrBodyF fuel cs2 (Char.ofNat 13 :: acc)
          else if d == 't' then parseStrBodyF fuel cs2 ('\t' :: acc)
          else if d == 'u' then
            match cs2 with
            | h1 :: h2 :: h3 :: h4 :: cs3 =>
              match hexVal h1, hexVal h2, hexVal h3, hexVal h4 with
              | some a, some b, some c2, some e =>
                  parseStrBodyF fuel cs3
                    (Char.ofNat (((a * 16 + b) * 16 + c2) * 16 + e) :: acc)
              | _, _, _, _ => none
            | _ => none
          else none
      else if decide (c.toNat < 32) then none
      else parseStrBodyF fuel cs1 (c :: acc)

/-- Body of a JSON string literal after the opening quote. -/
def parseStrBody (cs acc : List Char) : Option (String × List Char) :=
  parseStrBodyF (cs.length + 1) cs acc

/-- Optional fraction part of a JSON number: a dot must be followed by at
least one digit, as in json.loads. -/
def parseFracPart : List Char → Option (List Char × List Char)
  | '.' :: r =>
      let fs := r.takeWhile Char.isDigit
      if fs.isEmpty then none else some ('.' :: fs, r.drop fs.length)
  | cs => some ([], cs)

/-- Optional exponent part of a JSON number: e or E, an optional sign, then
at least one digit, as in json.loads. -/
def parseExpPart : List Char → Option (List Char × List Char)
  | [] => some ([], [])
  | c :: r =>
      if c == 'e' || c == 'E' then
        let (sgn, r1) := match r with
          | s :: rr => if s == '+' || s == '-' then ([s], rr) else (([] : List Char), r)
          | [] => (([] : List Char), ([] : List Char))
        let ds := r1.takeWhile Char.isDigit
        if ds.isEmpty then none else some (c :: (sgn ++ ds), r1.drop ds.length)
      else some ([], c :: r)

/-- JSON number with the grammar json.loads applies: an optional minus,
an integer part with no leading zero (json.loads refuses e.g. 01), then
optional fraction and exponent parts; -Infinity is also accepted here, as
Python's non-strict constant handling accepts it.  A plain integral
literal becomes an Int; any other accepted numeral is kept as its literal
text. -/
def parseNum (cs : List Char) : Option (Json × List Char) :=
  let (neg, cs1) := match cs with
    | '-' :: rest => (true, rest)
    | _ => (false, cs)
  if neg && leads ['I', 'n', 'f', 'i', 'n', 'i', 't', 'y'] cs1 then
    some (Json.decimal ("-Infinity"), cs1.drop 8)
  else
    let ds := cs1.takeWhile Char.isDigit
    if ds.isEmpty then none
    else if decide (2 ≤ ds.length) && (ds.headD ' ' == '0') then none
    else
      match parseFracPart (cs1.drop ds.length) with
      | none => none
      | some (frac, rest2) =>
        match parseExpPart rest2 with
        | none => none
        | some (ex, rest3) =>
          if frac.isEmpty && ex.isEmpty then
            let v : Int := Int.ofNat (digitsToNat ds)
            some (Json.num (if neg then -v else v), rest3)
          else
            some (Json.decimal (String.mk
              ((if neg then [Char.ofNat 45] else []) ++ ds ++ frac ++ ex)), rest3)

mutual

/-- Fuel-indexed recursive-descent JSON parser: one value. -/
def parseVal : Nat → List Char → Option (Json × List Char)
  | 0, _ => none
  | Nat.succ fuel, cs0 =>
    let cs := skipWs cs0
    match cs with
    | [] => none
    | c :: rest =>
      if c == Char.ofNat 34 then
        (parseStrBody rest []).map (fun pr => (Json.str pr.1, pr.2))
      else if c == lbrace then
        let rest1 := skipWs rest
        match rest1 with
        | d :: rest2 => if d == rbrace then some (Json.obj [], rest2)
                        else parseObjRest fuel rest1 []
        | [] => none
      else if c == '[' then
        let rest1 := skipWs rest
        match rest1 with
        | d :: rest2 => if d == ']' then some (Json.arr [], rest2)
                        else parseArrRest fuel rest1 []
        | [] => none
      else if leads ['t', 'r', 'u', 'e'] cs then some (Json.bool true, cs.drop 4)
      else if leads ['f', 'a', 'l', 's', 'e'] cs then some (Json.bool false, cs.drop 5)
      else if leads ['n', 'u', 'l', 'l'] cs then some (Json.null, cs.drop 4)
      else if leads ['N', 'a', 'N'] cs then some (Json.decimal ("NaN"), cs.drop 3)
      else if leads ['I', 'n', 'f', 'i', 'n', 'i', 't', 'y'] cs then
        some (Json.decimal ("Infinity"), cs.drop 8)
      else parseNum cs

/-- Members of a JSON object after the opening brace (at least one). -/
def parseObjRest : Nat → List Char → List (String × Json) → Option (Json × List Char)
  | 0, _, _ => none
  | Nat.succ fuel, cs0, acc =>
    match skipWs cs0 with
    | c :: rest =>
      if c == Char.ofNat 34 then
        match parseStrBody rest [] with
        | some (key, r1) =>
          match skipWs r1 with
          | ':' :: r3 =>
            match parseVal fuel r3 with
            | some (v, r4) =>
              match skipWs r4 with
              | d :: r6 =>
                if d == ',' then parseObjRest fuel r6 (acc ++ [(key, v)])
                else if d == rbrace then some (Json.obj (acc ++ [(key, v)]), r6)
                else none
              | [] => none
            | none => none
          | _ => none
        | none => none
      else none
    | [] => none

/-- Elements of a JSON array after the opening bracket (at least one). -/
def parseArrRest : Nat → List Char → List Json → Option (Json × List Char)
  | 0, _, _ => none
  | Nat.succ fuel, cs0, acc =>
    match parseVal fuel cs0 with
    | some (v, r1) =>
      match skipWs r1 with
      | d :: r3 =>
        if d == ',' then parseArrRest fuel r3 (acc ++ [v])
        else if d == ']' then some (Json.arr (acc ++ [v]), r3)
        else none
      | [] => none
    | none => none

end

/-- json.loads on a candidate substring: one value, then only whitespace may
remain. -/
def jsonParse (s : String) : Option Json :=
  match parseVal (s.data.length + 1) s.data with
  | some (v, rest) => if (skipWs rest).isEmpty then some v else none
  | none => none

/-- The substring the DOTALL-greedy brace pattern of LLMHandler.extract_json
matches: from the leftmost opening brace that precedes the last closing
brace of the text, through that last closing brace. -/
def extract_json_match (s : String) : Option String :=
  let cs := s.data
  let opens := (List.range cs.length).filter (fun i => cs.getD i ' ' == lbrace)
  let closes := (List.range cs.length).filter (fun i => cs.getD i ' ' == rbrace)
  match closes.getLast? with
  | none => none
  | some j =>
    match opens.find? (fun i => decide (i < j)) with
    | some i => some (String.mk ((cs.drop i).take (j + 1 - i)))
    | none => none

/-- LLMHandler.extract_json: the brace-pattern search, then json.loads, with
None on a missing match or a parse failure. -/
def extract_json (text : String) : Option Json :=
  match extract_json_match text with
  | some sub => jsonParse sub
  | none => none

/-- Python dict lookup on a parsed object (json.loads keeps the last value
of a repeated key). -/
def jsonLookup (fields : List (String × Json)) (key : String) : Option Json :=
  ((fields.filter (fun kv => kv.1 == key)).getLast?).map Prod.snd

/-- The three generic fallback questions of generate_technical_questions,
the first one naming the head of the tech stack. -/
def fallback_questions (tech_stack : List String) : List String :=
  ["Can you describe your experience with " ++
     tech_stack.headD ("your primary technology") ++ "?",
   "What's the most challenging technical problem you've solved recently?",
   "How do you stay updated with new technologies in your field?"]

/-- A list of strings as a JSON array. -/
def jsonOfStrings (l : List String) : Json := Json.arr (l.map Json.str)

/-- ConversationHandler.generate_technical_questions as a function of the
LLM response text: extract_json, then the isinstance(list) branch, then the
dict-with-questions branch, else the fallback.  The result is kept as a
Json value because the source returns whatever stood under the questions
key. -/
def generate_technical_questions (tech_stack : List String) (response : String) : Json :=
  match extract_json response with
  | some (Json.arr xs) => Json.arr xs
  | some (Json.obj fields) =>
      match jsonLookup fields ("questions") with
      | some v => v
      | none => jsonOfStrings (fallback_questions tech_stack)
  | _ => jsonOfStrings (fallback_questions tech_stack)

/-- Conversation phases of the session state machine. -/
inductive Phase where
  | greeting
  | info_gathering
  | technical_questions
  | completed
deriving Repr, DecidableEq

/-- English greeting template (the model fixes the language manager to its
default language en, as init_session_state does). -/
def greeting_en : String :=
  "Welcome aboard! I am Talent Scout. Thank you for taking the time to speak with me today. I appreciate your interest in the position.\n\nTo begin, could you please tell me your full name?"

/-- English farewell template. -/
def farewell_en : String :=
  "Thank you for your time today. We will update you shortly about the next steps in the hiring process."

/-- English thank-you-for-your-answer template. -/
def thank_you_answer_en : String := "Thank you for your answer!"

/-- English generic update-request reply. -/
def update_request_en : String :=
  "Of course! I can help you update your information. What would you like to update? Please provide the new information."

/-- English location-update reply. -/
def update_location_en : String := "Sure! Please provide your current location."

/-- English email-update reply. -/
def update_email_en : String :=
  "Of course! Please provide your updated email address."

/-- English phone-update reply. -/
def update_phone_en : String :=
  "No problem! Please provide your updated phone number."

/-- English update-confirmed reply. -/
def update_confirmed_en : String :=
  "Thank you! I've updated your information. Let's continue with the technical questions."

/-- LanguageManager.format_question for en: the question-numbering template. -/
def question_format_en (current total : Nat) : String :=
  "Question " ++ toString current ++ " of " ++ toString total ++ ":"

/-- Python str() of an optional string as format() would render it. -/
def pyStrOfOption : Option String → String
  | some s => s
  | none => "None"

/-- LanguageManager.format_tech_intro for en, with the name and tech-stack
placeholders filled in. -/
def tech_intro_en (name : Option String) (tech_stack : List String) : String :=
  let tech_stack_str :=
    if tech_stack.isEmpty then "your technologies"
    else String.intercalate (", ") tech_stack
  "Hello " ++ pyStrOfOption name ++
  ",\n\nThank you for taking the time to discuss your background and experience with me. I appreciate your interest in the position and your enthusiasm for the opportunity.\n\nBased on our conversation, it seems like you have a strong foundation in " ++
  tech_stack_str ++
  ". To better evaluate your skills, I will now ask you a few technical questions related to your tech stack. Your responses will help us assess your qualifications for the role more accurately.\n\nI will be asking questions tailored to your expertise to gauge your technical proficiency. Please feel free to provide detailed responses, and don't hesitate to ask for clarification if needed.\n\nLet's begin with the technical questions."

/-- LanguageManager.format_next_question for en: the canned single-field
prompts, defaulting to the name prompt for an unknown field key. -/
def format_next_question (field : String) : String :=
  if field == "full name" then
    "Thank you for your interest! Could you please tell me your full name?"
  else if field == "email address" then
    "Great! Now, could you please share your email address?"
  else if field == "phone number" then
    "Thank you! What's the best phone number to reach you?"
  else if field == "years of experience" then
    "How many years of professional experience do you have?"
  else if field == "desired position(s)" then
    "What position are you interested in applying for?"
  else if field == "current location" then
    "Where are you currently located?"
  else if field == "tech stack" then
    "What technologies are you proficient in? Please list your tech stack."
  else
    "Thank you for your interest! Could you please tell me your full name?"

/-- State of the Persistence Gateway as the app writes it for one session:
the upserted profile row, the conversation_logs transcript, the saved
question set and the (question_index, answer) rows. -/
structure Db where
  candidate : Option CandidateInfo
  transcript : List (String × String)
  saved_questions : List String
  answers : List (Nat × String)
deriving Repr, DecidableEq

/-- Empty database state. -/
def emptyDb : Db := ⟨none, [], [], []⟩

/-- Per-session Streamlit state used by main, as init_session_state sets it
up. -/
structure Session where
  messages : List (String × String)
  candidate_info : CandidateInfo
  phase : Phase
  technical_questions : List String
  current_question_index : Nat
  conversation_started : Bool
  last_technical_answer : Option String
  pending_update : Bool
  update_field : Option String
  candidate_id : Option Nat
  db : Db
deriving Repr, DecidableEq

/-- Fresh session as init_session_state produces it. -/
def init_session : Session :=
  ⟨[], emptyCandidateInfo, Phase.greeting, [], 0, false, none, false, none, none, emptyDb⟩

/-- save_message_to_db: the transcript row is written only when a candidate
id already exists (the conversation_logs table has a candidate foreign
key); otherwise the call silently does nothing. -/
def db_save_message (s : Session) (role content : String) : Session :=
  if s.candidate_id.isSome then
    {s with db := {s.db with transcript := s.db.transcript ++ [(role, content)]}}
  else s

/-- save_candidate_to_db backed by create_or_update_candidate: upserts the
profile snapshot and records the returned candidate id (1, the first
AUTOINCREMENT id of this session's row; the store is modelled as
available). -/
def db_save_candidate (s : Session) : Session :=
  {s with db := {s.db with candidate := some s.candidate_info},
          candidate_id := some 1}

/-- save_technical_questions, called under the candidate-id guard of main. -/
def db_save_questions (s : Session) (qs : List String) : Session :=
  if s.candidate_id.isSome then
    {s with db := {s.db with saved_questions := qs}}
  else s

/-- The greeting block of main: on the first script run the assistant
greeting is appended to the chat and save_message_to_db is called — before
any candidate row exists. -/
def start_conversation (s : Session) : Session :=
  if !s.conversation_started then
    let s := {s with messages := s.messages ++ [("assistant", greeting_en)],
                     conversation_started := true}
    db_save_message s "assistant" greeting_en
  else s

/-- The pending technical-answer flush at the top of each script run: a
truthy pending answer with a candidate id is persisted against
current_question_index - 1 and cleared. -/
def flush_technical_answer (s : Session) : Session :=
  match s.last_technical_answer, s.candidate_id with
  | some ans, some _ =>
      if ans == "" then s
      else
        {s with db := {s.db with
                  answers := s.db.answers ++ [(s.current_question_index - 1, ans)]},
                last_technical_answer := none}
  | _, _ => s

/-- The update-intent test of the technical-questions phase: an update
keyword and an info keyword both occur in the lowercased message. -/
def is_update_request (prompt : String) : Bool :=
  update_keywords.any (fun k => containsSub (pyLower prompt) k) &&
  info_keywords.any (fun k => containsSub (pyLower prompt) k)

/-- The technical-answer capture at the top of the input handler: in the
technical-questions phase with a candidate id, a message that is not an
update request while no update is pending is remembered as the pending
answer to the current question. -/
def capture_technical_answer (prompt : String) (s : Session) : Session :=
  if s.phase == Phase.technical_questions && s.candidate_id.isSome then
    if !is_update_request prompt && !s.pending_update then
      {s with last_technical_answer := some prompt}
    else s
  else s

/-- Per-turn external inputs: the typed LLM extraction result (none when
the LLM reply held no parseable JSON object), the technical-question list
the generator produced on this turn should the profile complete (its value
is what generate_technical_questions returns, settled separately), and the
LLM-phrased next question used when several fields are missing. -/
structure TurnEnv where
  extracted : Option Extracted
  gen_questions : List String
  nextq : String
deriving Repr, DecidableEq

/-- An environment whose LLM returned nothing usable. -/
def quietEnv : TurnEnv := ⟨none, [], ""⟩

/-- How one chat turn of main ends: with an assistant reply, with no
assistant output (the completed phase has no dispatch branch), or aborted
by an uncaught IndexError from an out-of-range list subscript — the
Streamlit run stops at the raise, so session mutations made before it
persist and everything after it, the chat append included, is skipped. -/
inductive TurnOutcome where
  | reply (text : String)
  | no_response
  | index_error
deriving Repr, DecidableEq

/-- The greeting/info_gathering dispatch branch of main: extract, persist
the profile, then either transition to technical questions (question
generation, intro plus first question, index reset to 0) or ask for missing
information.  When the generated question set is empty, the subscript
technical_questions[0] inside the intro f-string raises IndexError: the
phase switch, the question-list assignment and the question save have
already happened, while the index reset that follows the f-string, the chat
append and the message save have not. -/
def info_gathering_turn (env : TurnEnv) (prompt : String) (s : Session) :
    Session × TurnOutcome :=
  let info := extract_candidate_info prompt env.extracted s.candidate_info
  let s := {s with candidate_info := info}
  let s := db_save_candidate s
  if info.is_complete then
    let qs := env.gen_questions
    let s := {s with phase := Phase.technical_questions, technical_questions := qs}
    let s := db_save_questions s qs
    match qs[0]? with
    | none => (s, TurnOutcome.index_error)
    | some q0 =>
      let response := tech_intro_en info.full_name info.tech_stack ++
        "\n\n**" ++ question_format_en 1 qs.length ++ "**\n" ++ q0
      let s := {s with current_question_index := 0}
      let s := {s with messages := s.messages ++ [("assistant", response)]}
      let s := db_save_message s "assistant" response
      (s, TurnOutcome.reply response)
  else
    let missing := get_missing_info info
    let response :=
      if missing.length == 1 then format_next_question (missing.headD "")
      else env.nextq
    let s := {s with phase := Phase.info_gathering}
    let s := {s with messages := s.messages ++ [("assistant", response)]}
    let s := db_save_message s "assistant" response
    (s, TurnOutcome.reply response)

/-- The technical_questions dispatch branch of main: update-intent entry,
pending-update processing, or the normal answer flow advancing the index.
In the pending-update branch the re-presentation f-string subscripts
technical_questions[current_question_index] without a bounds check, so with
the index at or past the question count it raises IndexError after the
pending flag was cleared and the profile saved but before update_field is
cleared; the normal flow subscripts only under its index < count guard. -/
def technical_turn (env : TurnEnv) (prompt : String) (s : Session) :
    Session × TurnOutcome :=
  if is_update_request prompt then
    let response :=
      if containsSub (pyLower prompt) ("location") then update_location_en
      else if containsSub (pyLower prompt) ("email") then update_email_en
      else if containsSub (pyLower prompt) ("phone") then update_phone_en
      else update_request_en
    let ufield : Option String :=
      if containsSub (pyLower prompt) ("location") then some ("location")
      else if containsSub (pyLower prompt) ("email") then some ("email")
      else if containsSub (pyLower prompt) ("phone") then some ("phone")
      else none
    let s := {s with pending_update := true, update_field := ufield}
    let s := {s with messages := s.messages ++ [("assistant", response)]}
    let s := db_save_message s "assistant" response
    (s, TurnOutcome.reply response)
  else if s.pending_update then
    let s := {s with pending_update := false}
    let info := extract_candidate_info prompt env.extracted s.candidate_info
    let info :=
      if s.update_field == some ("location") then
        {info with current_location := some (pyStrip prompt)}
      else if s.update_field == some ("email") then
        match email_search prompt with
        | some m => {info with email := some m}
        | none => info
      else if s.update_field == some ("phone") then
        match phone_search prompt with
        | some m => if decide (10 ≤ m.length) then {info with phone := some m} else info
        | none => info
      else info
    let s := {s with candidate_info := info}
    let s := db_save_candidate s
    match s.technical_questions[s.current_question_index]? with
    | none => (s, TurnOutcome.index_error)
    | some q =>
      let response := update_confirmed_en ++ "\n\n**" ++
        question_format_en (s.current_question_index + 1) s.technical_questions.length ++
        "**\n" ++ q
      let s := {s with update_field := none}
      let s := {s with messages := s.messages ++ [("assistant", response)]}
      let s := db_save_message s "assistant" response
      (s, TurnOutcome.reply response)
  else
    let s := {s with current_question_index := s.current_question_index + 1}
    if decide (s.current_question_index < s.technical_questions.length) then
      match s.technical_questions[s.current_question_index]? with
      | none => (s, TurnOutcome.index_error)
      | some q =>
        let response := thank_you_answer_en ++ "\n\n**" ++
          question_format_en (s.current_question_index + 1) s.technical_questions.length ++
          "**\n" ++ q
        let s := {s with messages := s.messages ++ [("assistant", response)]}
        let s := db_save_message s "assistant" response
        (s, TurnOutcome.reply response)
    else
      let s := {s with phase := Phase.completed}
      let response := farewell_en
      let s := {s with messages := s.messages ++ [("assistant", response)]}
      let s := db_save_message s "assistant" response
      (s, TurnOutcome.reply response)

/-- One chat turn of main (the body under st.chat_input), returning the new
session and the outcome of the turn (no_response in the completed phase,
which has no dispatch branch in the source).  The run preamble
(greeting on first run, pending-answer flush), the user-message append and
persist, the technical-answer capture, the end-keyword check, and the
phase dispatch follow the source line by line.  The chat-append and
persist of the assistant response inside the technical-questions branch
lies past the point where the repository's app.py text ends and is
Modelled from the spec: every inbound/outbound message is mirrored to the
Persistence Gateway. -/
def process_turn (env : TurnEnv) (prompt : String) (s0 : Session) :
    Session × TurnOutcome :=
  let s := start_conversation s0
  let s := flush_technical_answer s
  let s := {s with messages := s.messages ++ [("user", prompt)]}
  let s := db_save_message s "user" prompt
  let s := capture_technical_answer prompt s
  if should_end_conversation prompt then
    let s := {s with messages := s.messages ++ [("assistant", farewell_en)]}
    let s := db_save_message s "assistant" farewell_en
    ({s with phase := Phase.completed}, TurnOutcome.reply farewell_en)
  else
    match s.phase with
    | Phase.greeting => info_gathering_turn env prompt s
    | Phase.info_gathering => info_gathering_turn env prompt s
    | Phase.technical_questions => technical_turn env prompt s
    | Phase.completed => (s, TurnOutcome.no_response)

/-- A fully populated profile used by concrete witnesses. -/
def sampleProfile : CandidateInfo :=
  ⟨some "Helen", some "helen@example.com", some "1234567890", some 3,
   ["tester"], some "Goa", ["Python"]⟩

/-- A session in the technical-questions phase used by concrete witnesses
and counterexamples: three questions, the one at index 1 pending. -/
def tqSession : Session :=
  ⟨[("assistant", greeting_en)], sampleProfile, Phase.technical_questions,
   ["Q1", "Q2", "Q3"], 1, true, none, false, none, some 1,
   ⟨some sampleProfile, [], ["Q1", "Q2", "Q3"], []⟩⟩

/-- The same session one turn into update sub-mode, awaiting a new email. -/
def tqPendingSession : Session :=
  {tqSession with pending_update := true, update_field := some ("email")}

/-- A mid-collection session: greeting already given, profile partially
filled (location still missing), candidate row already persisted. -/
def infoSession : Session :=
  ⟨[("assistant", greeting_en)],
   ⟨some "Helen", some "helen@example.com", some "1234567890", some 3,
    ["tester"], none, ["Python"]⟩,
   Phase.info_gathering, [], 0, true, none, false, none, some 1,
   ⟨some ⟨some "Helen", some "helen@example.com", some "1234567890", some 3,
      ["tester"], none, ["Python"]⟩, [], [], []⟩⟩

/-- The session left behind when the profile completes while the question
generator returns the empty list (the questions value of the LLM object was
the empty array): the transition turn aborts with IndexError at the intro
f-string, stranding the session in the technical-questions phase with zero
questions and the index still 0. -/
def crashedSession : Session := (process_turn quietEnv ("Goa") infoSession).1

/-- The stranded empty-question-set session one update-intent turn later:
pending_update set, update_field email, still zero questions. -/
def crashedUpdateSession : Session :=
  (process_turn quietEnv ("I want to update my email") crashedSession).1

/-- The answer rows the run preamble's pending-answer flush appends for a
session holding a candidate id: the pending answer, if any, against the
previous question index; nothing when the slot is empty. -/
def flushed_rows (s : Session) : List (Nat × String) :=
  match s.last_technical_answer with
  | some a => if a == "" then [] else [(s.current_question_index - 1, a)]
  | none => []

lemma llm_merge_none (ci : CandidateInfo) : llm_merge none ci = ci := rfl

lemma llm_merge_some (ex : Extracted) (ci : CandidateInfo) :
    llm_merge (some ex) ci =
      lm_tech ex (lm_location ex (lm_positions ex (lm_years ex (lm_phone ex
        (lm_email ex (lm_full_name ex ci)))))) := rfl

lemma he_email_noop {message : String} {ci : CandidateInfo}
    (h : truthyStr ci.email = true) : he_email message ci = ci := by
  unfold he_email; repeat' split <;> simp_all

lemma he_phone_noop {message : String} {ci : CandidateInfo}
    (h : truthyStr ci.phone = true) : he_phone message ci = ci := by
  unfold he_phone; repeat' split <;> simp_all

lemma he_years_noop {message : String} {ci : CandidateInfo}
    (h : ci.years_experience.isSome = true) : he_years message ci = ci := by
  unfold he_years; repeat' split <;> simp_all

lemma he_name_noop {message : String} {ci : CandidateInfo}
    (h : truthyStr ci.full_name = true) : he_name message ci = ci := by
  unfold he_name; repeat' split <;> simp_all

lemma he_location_noop {message : String} {ci : CandidateInfo}
    (h : truthyStr ci.current_location = true) : he_location message ci = ci := by
  unfold he_location; repeat' split <;> simp_all

lemma position_fallback_noop {message : String} {ci : CandidateInfo}
    (h : ci.desired_positions.isEmpty = false) :
    position_fallback message ci = ci := by
  unfold position_fallback; repeat' split <;> simp_all

lemma lm_full_name_noop {ex : Extracted} {ci : CandidateInfo}
    (h : truthyStr ci.full_name = true) : lm_full_name ex ci = ci := by
  unfold lm_full_name; repeat' split <;> simp_all

lemma lm_email_noop {ex : Extracted} {ci : CandidateInfo}
    (h : truthyStr ci.email = true) : lm_email ex ci = ci := by
  unfold lm_email; repeat' split <;> simp_all

lemma lm_phone_noop {ex : Extracted} {ci : CandidateInfo}
    (h : truthyStr ci.phone = true) : lm_phone ex ci = ci := by
  unfold lm_phone; repeat' split <;> simp_all

lemma lm_years_noop {ex : Extracted} {ci : CandidateInfo}
    (h : ci.years_experience.isSome = true) : lm_years ex ci = ci := by
  unfold lm_years; repeat' split <;> simp_all

lemma lm_location_noop {ex : Extracted} {ci : CandidateInfo}
    (h : truthyStr ci.current_location = true) : lm_location ex ci = ci := by
  unfold lm_location; repeat' split <;> simp_all

@[simp] lemma he_email_full_name (message : String) (ci : CandidateInfo) :
    (he_email message ci).full_name = ci.full_name := by
  unfold he_email; (repeat' (first | split | dsimp only)) <;> rfl

@[simp] lemma he_email_phone (message : String) (ci : CandidateInfo) :
    (he_email message ci).phone = ci.phone := by
  unfold he_email; (repeat' (first | split | dsimp only)) <;> rfl

@[simp] lemma he_email_years (message : String) (ci : CandidateInfo) :
    (he_email message ci).years_experience = ci.years_experience := by
  unfold he_email; (repeat' (first | split | dsimp only)) <;> rfl

@[simp] lemma he_email_location (message : String) (ci : CandidateInfo) :
    (he_email message ci).current_location = ci.current_location := by
  unfold he_email; (repeat' (first | split | dsimp only)) <;> rfl

@[simp] lemma he_phone_full_name (message : String) (ci : CandidateInfo) :
    (he_phone message ci).full_name = ci.full_name := by
  unfold he_phone; (repeat' (first | split | dsimp only)) <;> rfl

@[simp] lemma he_phone_email (message : String) (ci : CandidateInfo) :
    (he_phone message ci).email = ci.email := by
  unfold he_phone; (repeat' (first | split | dsimp only)) <;> rfl

@[simp] lemma he_phone_years (message : String) (ci : CandidateInfo) :
    (he_phone message ci).years_experience = ci.years_experience := by
  unfold he_phone; (repeat' (first | split | dsimp only)) <;> rfl

@[simp] lemma he_phone_location (message : String) (ci : CandidateInfo) :
    (he_phone message ci).current_location = ci.current_location := by
  unfold he_phone; (repeat' (first | split | dsimp only)) <;> rfl

@[simp] lemma he_years_full_name (message : String) (ci : CandidateInfo) :
    (he_years message ci).full_name = ci.full_name := by
  unfold he_years; (repeat' (first | split | dsimp only)) <;> rfl

@[simp] lemma he_years_email (message : String) (ci : CandidateInfo) :
    (he_years message ci).email = ci.email := by
  unfold he_years; (repeat' (first | split | dsimp only)) <;> rfl

@[simp] lemma he_years_phone (message : String) (ci : CandidateInfo) :
    (he_years message ci).phone = ci.phone := by
  unfold he_years; (repeat' (first | split | dsimp only)) <;> rfl

@[simp] lemma he_years_location (message : String) (ci : CandidateInfo) :
    (he_years message ci).current_location = ci.current_location := by
  unfold he_years; (repeat' (first | split | dsimp only)) <;> rfl

@[simp] lemma he_name_email (message : String) (ci : CandidateInfo) :
    (he_name message ci).email = ci.email := by
  unfold he_name; (repeat' (first | split | dsimp only)) <;> rfl

@[simp] lemma he_name_phone (message : String) (ci : CandidateInfo) :
    (he_name message ci).phone = ci.phone := by
  unfold he_name; (repeat' (first | split | dsimp only)) <;> rfl

@[simp] lemma he_name_years (message : String) (ci : CandidateInfo) :
    (he_name message ci).years_experience = ci.years_experience := by
  unfold he_name; (repeat' (first | split | dsimp only)) <;> rfl

@[simp] lemma he_name_location (message : String) (ci : CandidateInfo) :
    (he_name message ci).current_location = ci.current_location := by
  unfold he_name; (repeat' (first | split | dsimp only)) <;> rfl

@[simp] lemma he_location_full_name (message : String) (ci : CandidateInfo) :
    (he_location message ci).full_name = ci.full_name := by
  unfold he_location; (repeat' (first | split | dsimp only)) <;> rfl

@[simp] lemma he_location_email (message : String) (ci : CandidateInfo) :
    (he_location message ci).email = ci.email := by
  unfold he_location; (repeat' (first | split | dsimp only)) <;> rfl

@[simp] lemma he_location_phone (message : String) (ci : CandidateInfo) :
    (he_location message ci).phone = ci.phone := by
  unfold he_location; (repeat' (first | split | dsimp only)) <;> rfl

@[simp] lemma he_location_years (message : String) (ci : CandidateInfo) :
    (he_location message ci).years_experience = ci.years_experience := by
  unfold he_location; (repeat' (first | split | dsimp only)) <;> rfl

@[simp] lemma lm_full_name_email (ex : Extracted) (ci : CandidateInfo) :
    (lm_full_name ex ci).email = ci.email := by
  unfold lm_full_name; (repeat' (first | split | dsimp only)) <;> rfl

@[simp] lemma lm_full_name_phone (ex : Extracted) (ci : CandidateInfo) :
    (lm_full_name ex ci).phone = ci.phone := by
  unfold lm_full_name; (repeat' (first | split | dsimp only)) <;> rfl

@[simp] lemma lm_full_name_years (ex : Extracted) (ci : CandidateInfo) :
    (lm_full_name ex ci).years_experience = ci.years_experience := by
  unfold lm_full_name; (repeat' (first | split | dsimp only)) <;> rfl

@[simp] lemma lm_full_name_location (ex : Extracted) (ci : CandidateInfo) :
    (lm_full_name ex ci).current_location = ci.current_location := by
  unfold lm_full_name; (repeat' (first | split | dsimp only)) <;> rfl

@[simp] lemma lm_email_full_name (ex : Extracted) (ci : CandidateInfo) :
    (lm_email ex ci).full_name = ci.full_name := by
  unfold lm_email; (repeat' (first | split | dsimp only)) <;> rfl

@[simp] lemma lm_email_phone (ex : Extracted) (ci : CandidateInfo) :
    (lm_email ex ci).phone = ci.phone := by
  unfold lm_email; (repeat' (first | split | dsimp only)) <;> rfl

@[simp] lemma lm_email_years (ex : Extracted) (ci : CandidateInfo) :
    (lm_email ex ci).years_experience = ci.years_experience := by
  unfold lm_email; (repeat' (first | split | dsimp only)) <;> rfl

@[simp] lemma lm_email_location (ex : Extracted) (ci : CandidateInfo) :
    (lm_email ex ci).current_location = ci.current_location := by
  unfold lm_email; (repeat' (first | split | dsimp only)) <;> rfl

@[simp] lemma lm_phone_full_name (ex : Extracted) (ci : CandidateInfo) :
    (lm_phone ex ci).full_name = ci.full_name := by
  unfold lm_phone; (repeat' (first | split | dsimp only)) <;> rfl

@[simp] lemma lm_phone_email (ex : Extracted) (ci : CandidateInfo) :
    (lm_phone ex ci).email = ci.email := by
  unfold lm_phone; (repeat' (first | split | dsimp only)) <;> rfl

@[simp] lemma lm_phone_years (ex : Extracted) (ci : CandidateInfo) :
    (lm_phone ex ci).years_experience = ci.years_experience := by
  unfold lm_phone; (repeat' (first | split | dsimp only)) <;> rfl

@[simp] lemma lm_phone_location (ex : Extracted) (ci : CandidateInfo) :
    (lm_phone ex ci).current_location = ci.current_location := by
  unfold lm_phone; (repeat' (first | split | dsimp only)) <;> rfl

@[simp] lemma lm_years_full_name (ex : Extracted) (ci : CandidateInfo) :
    (lm_years ex ci).full_name = ci.full_name := by
  unfold lm_years; (repeat' (first | split | dsimp only)) <;> rfl

@[simp] lemma lm_years_email (ex : Extracted) (ci : CandidateInfo) :
    (lm_years ex ci).email = ci.email := by
  unfold lm_years; (repeat' (first | split | dsimp only)) <;> rfl

@[simp] lemma lm_years_phone (ex : Extracted) (ci : CandidateInfo) :
    (lm_years ex ci).phone = ci.phone := by
  unfold lm_years; (repeat' (first | split | dsimp only)) <;> rfl

@[simp] lemma lm_years_location (ex : Extracted) (ci : CandidateInfo) :
    (lm_years ex ci).current_location = ci.current_location := by
  unfold lm_years; (repeat' (first | split | dsimp only)) <;> rfl

@[simp] lemma lm_location_full_name (ex : Extracted) (ci : CandidateInfo) :
    (lm_location ex ci).full_name = ci.full_name := by
  unfold lm_location; (repeat' (first | split | dsimp only)) <;> rfl

@[simp] lemma lm_location_email (ex : Extracted) (ci : CandidateInfo) :
    (lm_location ex ci).email = ci.email := by
  unfold lm_location; (repeat' (first | split | dsimp only)) <;> rfl

@[simp] lemma lm_location_phone (ex : Extracted) (ci : CandidateInfo) :
    (lm_location ex ci).phone = ci.phone := by
  unfold lm_location; (repeat' (first | split | dsimp only)) <;> rfl

@[simp] lemma lm_location_years (ex : Extracted) (ci : CandidateInfo) :
    (lm_location ex ci).years_experience = ci.years_experience := by
  unfold lm_location; (repeat' (first | split | dsimp only)) <;> rfl

@[simp] lemma lm_positions_full_name (ex : Extracted) (ci : CandidateInfo) :
    (lm_positions ex ci).full_name = ci.full_name := by
  unfold lm_positions; (repeat' (first | split | dsimp only)) <;> rfl

@[simp] lemma lm_positions_email (ex : Extracted) (ci : CandidateInfo) :
    (lm_positions ex ci).email = ci.email := by
  unfold lm_positions; (repeat' (first | split | dsimp only)) <;> rfl

@[simp] lemma lm_positions_phone (ex : Extracted) (ci : CandidateInfo) :
    (lm_positions ex ci).phone = ci.phone := by
  unfold lm_positions; (repeat' (first | split | dsimp only)) <;> rfl

@[simp] lemma lm_positions_years (ex : Extracted) (ci : CandidateInfo) :
    (lm_positions ex ci).years_experience = ci.years_experience := by
  unfold lm_positions; (repeat' (first | split | dsimp only)) <;> rfl

@[simp] lemma lm_positions_location (ex : Extracted) (ci : CandidateInfo) :
    (lm_positions ex ci).current_location = ci.current_location := by
  unfold lm_positions; (repeat' (first | split | dsimp only)) <;> rfl

@[simp] lemma lm_tech_full_name (ex : Extracted) (ci : CandidateInfo) :
    (lm_tech ex ci).full_name = ci.full_name := by
  unfold lm_tech; (repeat' (first | split | dsimp only)) <;> rfl

@[simp] lemma lm_tech_email (ex : Extracted) (ci : CandidateInfo) :
    (lm_tech ex ci).email = ci.email := by
  unfold lm_tech; (repeat' (first | split | dsimp only)) <;> rfl

@[simp] lemma lm_tech_phone (ex : Extracted) (ci : CandidateInfo) :
    (lm_tech ex ci).phone = ci.phone := by
  unfold lm_tech; (repeat' (first | split | dsimp only)) <;> rfl

@[simp] lemma lm_tech_years (ex : Extracted) (ci : CandidateInfo) :
    (lm_tech ex ci).years_experience = ci.years_experience := by
  unfold lm_tech; (repeat' (first | split | dsimp only)) <;> rfl

@[simp] lemma lm_tech_location (ex : Extracted) (ci : CandidateInfo) :
    (lm_tech ex ci).current_location = ci.current_location := by
  unfold lm_tech; (repeat' (first | split | dsimp only)) <;> rfl

@[simp] lemma position_fallback_full_name (message : String) (ci : CandidateInfo) :
    (position_fallback message ci).full_name = ci.full_name := by
  unfold position_fallback; (repeat' (first | split | dsimp only)) <;> rfl

@[simp] lemma position_fallback_email (message : String) (ci : CandidateInfo) :
    (position_fallback message ci).email = ci.email := by
  unfold position_fallback; (repeat' (first | split | dsimp only)) <;> rfl

@[simp] lemma position_fallback_phone (message : String) (ci : CandidateInfo) :
    (position_fallback message ci).phone = ci.phone := by
  unfold position_fallback; (repeat' (first | split | dsimp only)) <;> rfl

@[simp] lemma position_fallback_years (message : String) (ci : CandidateInfo) :
    (position_fallback message ci).years_experience = ci.years_experience := by
  unfold position_fallback; (repeat' (first | split | dsimp only)) <;> rfl

@[simp] lemma position_fallback_location (message : String) (ci : CandidateInfo) :
    (position_fallback message ci).current_location = ci.current_location := by
  unfold position_fallback; (repeat' (first | split | dsimp only)) <;> rfl

lemma fww_full_name (m : String) (ex : Option Extracted) (ci : CandidateInfo)
    (h : truthyStr ci.full_name = true) :
    (extract_candidate_info m ex ci).full_name = ci.full_name := by
  cases ex with
  | none =>
      simp [extract_candidate_info, heuristic_extract, llm_merge_none,
            he_name_noop, h]
  | some e =>
      simp [extract_candidate_info, heuristic_extract, llm_merge_some,
            he_name_noop, lm_full_name_noop, h]

lemma fww_email (m : String) (ex : Option Extracted) (ci : CandidateInfo)
    (h : truthyStr ci.email = true) :
    (extract_candidate_info m ex ci).email = ci.email := by
  cases ex with
  | none =>
      simp [extract_candidate_info, heuristic_extract, llm_merge_none,
            he_email_noop, h]
  | some e =>
      simp [extract_candidate_info, heuristic_extract, llm_merge_some,
            he_email_noop, lm_email_noop, h]

lemma fww_phone (m : String) (ex : Option Extracted) (ci : CandidateInfo)
    (h : truthyStr ci.phone = true) :
    (extract_candidate_info m ex ci).phone = ci.phone := by
  cases ex with
  | none =>
      simp [extract_candidate_info, heuristic_extract, llm_merge_none,
            he_phone_noop, h]
  | some e =>
      simp [extract_candidate_info, heuristic_extract, llm_merge_some,
            he_phone_noop, lm_phone_noop, h]

lemma fww_years (m : String) (ex : Option Extracted) (ci : CandidateInfo)
    (h : ci.years_experience.isSome = true) :
    (extract_candidate_info m ex ci).years_experience = ci.years_experience := by
  cases ex with
  | none =>
      simp [extract_candidate_info, heuristic_extract, llm_merge_none,
            he_years_noop, h]
  | some e =>
      simp [extract_candidate_info, heuristic_extract, llm_merge_some,
            he_years_noop, lm_years_noop, h]

lemma fww_location (m : String) (ex : Option Extracted) (ci : CandidateInfo)
    (h : truthyStr ci.current_location = true) :
    (extract_candidate_info m ex ci).current_location = ci.current_location := by
  cases ex with
  | none =>
      simp [extract_candidate_info, heuristic_extract, llm_merge_none,
            he_location_noop, h]
  | some e =>
      simp [extract_candidate_info, heuristic_extract, llm_merge_some,
            he_location_noop, lm_location_noop, h]

/-- C1: for every incoming message, every LLM extraction result and every
current profile, an extraction pass (the heuristic regex extractors
followed by the LLM-result merge of extract_candidate_info) never changes a
scalar profile field that is already set to a non-empty/non-null value;
only unset scalar fields can be assigned (first-write-wins per scalar
field). -/
theorem extract_pass_first_write_wins (message : String) (ex : Option Extracted)
    (ci : CandidateInfo) :
    (truthyStr ci.full_name = true →
      (extract_candidate_info message ex ci).full_name = ci.full_name) ∧
    (truthyStr ci.email = true →
      (extract_candidate_info message ex ci).email = ci.email) ∧
    (truthyStr ci.phone = true →
      (extract_candidate_info message ex ci).phone = ci.phone) ∧
    (ci.years_experience.isSome = true →
      (extract_candidate_info message ex ci).years_experience = ci.years_experience) ∧
    (truthyStr ci.current_location = true →
      (extract_candidate_info message ex ci).current_location = ci.current_location) :=
  ⟨fww_full_name message ex ci, fww_email message ex ci, fww_phone message ex ci,
   fww_years message ex ci, fww_location message ex ci⟩

/-- Witness for C1 at a concrete input: a fully populated profile keeps its
full name through a further extraction pass. -/
theorem extract_pass_first_write_wins_witness :
    truthyStr sampleProfile.full_name = true ∧
    (extract_candidate_info "hello there" none sampleProfile).full_name =
      sampleProfile.full_name :=
  ⟨by decide,
   (extract_pass_first_write_wins "hello there" none sampleProfile).1 (by decide)⟩

/-- C2 (code-bug evaluation): one LLM batch holding two case-variants of
the same position, merged into an empty profile, yields a
desired_positions list with two entries equal under case-insensitive
comparison — the lowercased duplicate check is computed once before the
batch loop, so entries appended within the batch are not checked against
each other. -/
theorem duplicate_positions_at_failing_input :
    (extract_candidate_info ""
        (some ⟨none, none, none, none,
               some (StrOrList.list ["Tester", "tester"]), none, none⟩)
        emptyCandidateInfo).desired_positions = ["Tester", "tester"] ∧
    pyLower "Tester" = pyLower "tester" := by
  constructor <;> decide

/-- C3 counterexample: a profile whose full_name is the empty string (and
every other field populated) has every field non-null and both lists
non-empty, yet is_complete returns false — the source tests Python
truthiness, not is-not-None, on the string fields. -/
theorem is_complete_nonnull_counterexample :
    CandidateInfo.is_complete ⟨some "", some "a@b.com", some "1234567890",
      some 0, ["tester"], some "Goa", ["Python"]⟩ = false ∧
    (⟨some "", some "a@b.com", some "1234567890", some 0, ["tester"],
      some "Goa", ["Python"]⟩ : CandidateInfo).full_name.isSome = true ∧
    (⟨some "", some "a@b.com", some "1234567890", some 0, ["tester"],
      some "Goa", ["Python"]⟩ : CandidateInfo).email.isSome = true ∧
    (⟨some "", some "a@b.com", some "1234567890", some 0, ["tester"],
      some "Goa", ["Python"]⟩ : CandidateInfo).phone.isSome = true ∧
    (⟨some "", some "a@b.com", some "1234567890", some 0, ["tester"],
      some "Goa", ["Python"]⟩ : CandidateInfo).years_experience.isSome = true ∧
    (⟨some "", some "a@b.com", some "1234567890", some 0, ["tester"],
      some "Goa", ["Python"]⟩ : CandidateInfo).desired_positions.isEmpty = false ∧
    (⟨some "", some "a@b.com", some "1234567890", some 0, ["tester"],
      some "Goa", ["Python"]⟩ : CandidateInfo).current_location.isSome = true ∧
    (⟨some "", some "a@b.com", some "1234567890", some 0, ["tester"],
      some "Goa", ["Python"]⟩ : CandidateInfo).tech_stack.isEmpty = false := by
  decide

/-- C3 (amended): is_complete returns true iff every scalar string field is
non-null AND non-empty, years_experience is non-null (0 counts as
populated), and both list fields are non-empty. -/
theorem is_complete_iff_truthy (c : CandidateInfo) :
    c.is_complete = true ↔
      ((∃ s, c.full_name = some s ∧ s ≠ "") ∧
       (∃ s, c.email = some s ∧ s ≠ "") ∧
       (∃ s, c.phone = some s ∧ s ≠ "") ∧
       c.years_experience ≠ none ∧
       c.desired_positions ≠ [] ∧
       (∃ s, c.current_location = some s ∧ s ≠ "") ∧
       c.tech_stack ≠ []) := by
  obtain ⟨fn, em, ph, ye, dp, loc, ts⟩ := c
  cases fn <;> cases em <;> cases ph <;> cases loc <;>
    simp [CandidateInfo.is_complete, truthyStr, Option.isSome_iff_ne_none,
      List.isEmpty_iff, and_assoc]

/-- C7 counterexample: a response that is a bare JSON array is not parsed
(extract_json only recognises a brace-delimited object) and yields the
fallback instead of the parsed question list, and a parseable object whose
questions entry is the empty array yields an empty result, so the function
does not always return a non-empty list. -/
theorem question_parse_counterexample :
    generate_technical_questions ["Python"] "[\"a\", \"b\", \"c\"]" =
      jsonOfStrings (fallback_questions ["Python"]) ∧
    jsonOfStrings (fallback_questions ["Python"]) ≠
      Json.arr [Json.str "a", Json.str "b", Json.str "c"] ∧
    generate_technical_questions ["Python"] "\x7b\"questions\": []\x7d" = Json.arr [] := by
  refine ⟨rfl, ?_, rfl⟩
  intro h
  simp only [jsonOfStrings, fallback_questions] at h
  injection h with h1
  simp at h1

/-- Any value parseObjRest returns is an object. -/
lemma parseObjRest_shape (fuel : Nat) :
    ∀ (cs : List Char) (acc : List (String × Json)) (v : Json) (r : List Char),
      parseObjRest fuel cs acc = some (v, r) → ∃ fields, v = Json.obj fields := by
  induction fuel with
  | zero =>
      intro cs acc v r h
      exact absurd h (by simp [parseObjRest])
  | succ n ih =>
      intro cs acc v r h
      unfold parseObjRest at h
      (repeat' split at h) <;>
        first
          | (rw [Option.some.injEq, Prod.mk.injEq] at h; exact ⟨_, h.1.symm⟩)
          | exact ih _ _ _ _ h
          | exact Option.noConfusion h

/-- Any value parseVal returns for input starting at an opening brace is an
object. -/
lemma parseVal_obj_of_lbrace (fuel : Nat) (rest : List Char) (v : Json)
    (r : List Char) (h : parseVal fuel (lbrace :: rest) = some (v, r)) :
    ∃ fields, v = Json.obj fields := by
  cases fuel with
  | zero => exact absurd h (by simp [parseVal])
  | succ n =>
      change (match skipWs rest with
        | d :: rest2 =>
            if d == rbrace then some (Json.obj ([] : List (String × Json)), rest2)
            else parseObjRest n (skipWs rest) []
        | [] => none) = some (v, r) at h
      (repeat' split at h) <;>
        first
          | (rw [Option.some.injEq, Prod.mk.injEq] at h; exact ⟨_, h.1.symm⟩)
          | exact parseObjRest_shape n _ _ _ _ h
          | exact Option.noConfusion h

/-- The substring the brace pattern matches begins with the opening brace
it was anchored at. -/
lemma extract_json_match_head (s sub : String)
    (hm : extract_json_match s = some sub) : ∃ t, sub.data = lbrace :: t := by
  unfold extract_json_match at hm
  dsimp only at hm
  cases hlast : ((List.range s.data.length).filter
      (fun i => s.data.getD i ' ' == rbrace)).getLast? with
  | none => rw [hlast] at hm; exact absurd hm (by simp)
  | some j =>
    rw [hlast] at hm
    dsimp only at hm
    cases hfind : ((List.range s.data.length).filter
        (fun i => s.data.getD i ' ' == lbrace)).find? (fun i => decide (i < j)) with
    | none => rw [hfind] at hm; exact absurd hm (by simp)
    | some i =>
      rw [hfind] at hm
      rw [Option.some.injEq] at hm
      have hmem : i ∈ (List.range s.data.length).filter
          (fun i => s.data.getD i ' ' == lbrace) := List.mem_of_find?_eq_some hfind
      rw [List.mem_filter, List.mem_range] at hmem
      obtain ⟨hilen, hlb⟩ := hmem
      rw [beq_iff_eq] at hlb
      have hij : i < j := by simpa using List.find?_some hfind
      have hgd : s.data[i] = lbrace := by
        rw [List.getD_eq_getElem?_getD, List.getElem?_eq_getElem hilen] at hlb
        simpa using hlb
      have hdrop : s.data.drop i = lbrace :: s.data.drop (i + 1) := by
        rw [List.drop_eq_getElem_cons hilen, hgd]
      have hk : j + 1 - i = (j - i) + 1 := by omega
      refine ⟨(s.data.drop (i + 1)).take (j - i), ?_⟩
      rw [← hm]
      dsimp only
      rw [hdrop, hk, List.take_succ_cons]

/-- extract_json can only ever produce an object: the matched substring
starts at an opening brace, and the parser maps such input to an object or
fails. -/
lemma extract_json_obj (response : String) (j : Json)
    (h : extract_json response = some j) : ∃ fields, j = Json.obj fields := by
  unfold extract_json at h
  cases hm : extract_json_match response with
  | none => rw [hm] at h; exact absurd h (by simp)
  | some sub =>
    rw [hm] at h
    dsimp only at h
    obtain ⟨t, ht⟩ := extract_json_match_head response sub hm
    unfold jsonParse at h
    rw [ht] at h
    cases hv : parseVal ((lbrace :: t).length + 1) (lbrace :: t) with
    | none => rw [hv] at h; exact absurd h (by simp)
    | some pr =>
      rw [hv] at h
      obtain ⟨v, rest⟩ := pr
      dsimp only at h
      obtain ⟨fields, hf⟩ := parseVal_obj_of_lbrace _ t v rest hv
      split at h
      · rw [Option.some.injEq] at h
        exact ⟨fields, h.symm.trans hf⟩
      · exact absurd h (by simp)

/-- C7 (amended): generate_technical_questions returns the value stored
under the questions key whenever extract_json finds a brace-delimited JSON
object holding one (so the result is empty when that value is the empty
array), and the fixed three-question fallback in every other case — when
the parsed object lacks the key and when nothing parses; extract_json can
only ever produce an object, never a bare list, so the isinstance-list
branch is unreachable, and it produces nothing at all for a response with
no opening brace — in particular every response that is a bare JSON array
gets the fallback. -/
theorem questions_object_or_fallback :
    (∀ (ts : List String) (response : String),
        extract_json response = none →
        generate_technical_questions ts response =
          jsonOfStrings (fallback_questions ts)) ∧
    (∀ (ts : List String) (response : String) (fields : List (String × Json)),
        extract_json response = some (Json.obj fields) →
        jsonLookup fields ("questions") = none →
        generate_technical_questions ts response =
          jsonOfStrings (fallback_questions ts)) ∧
    (∀ (ts : List String) (response : String) (fields : List (String × Json))
        (v : Json),
        extract_json response = some (Json.obj fields) →
        jsonLookup fields ("questions") = some v →
        generate_technical_questions ts response = v) ∧
    (∀ (response : String) (j : Json),
        extract_json response = some j → ∃ fields, j = Json.obj fields) ∧
    (∀ (response : String),
        (∀ c ∈ response.data, c ≠ lbrace) → extract_json response = none) := by
  refine ⟨?_, ?_, ?_, ?_, ?_⟩
  · intro ts response h
    unfold generate_technical_questions
    rw [h]
  · intro ts response fields hx hl
    unfold generate_technical_questions
    rw [hx]
    dsimp only
    rw [hl]
  · intro ts response fields v hx hl
    unfold generate_technical_questions
    rw [hx]
    dsimp only
    rw [hl]
  · intro response j h
    exact extract_json_obj response j h
  · intro response h
    have hop : ((List.range response.data.length).filter
        (fun i => response.data.getD i ' ' == lbrace)) = [] := by
      rw [List.filter_eq_nil]
      intro i hi
      rw [List.mem_range] at hi
      have hmem : response.data.getD i ' ' ∈ response.data := by
        rw [List.getD_eq_getElem?_getD]
        cases hg : response.data[i]? with
        | none =>
            rw [List.getElem?_eq_none_iff] at hg
            omega
        | some a =>
            simp only [Option.getD_some]
            exact List.getElem?_mem hg
      simp only [beq_iff_eq]
      exact h _ hmem
    have hm : extract_json_match response = none := by
      unfold extract_json_match
      dsimp only
      rw [hop]
      cases ((List.range response.data.length).filter
          (fun i => response.data.getD i ' ' == rbrace)).getLast? <;> simp
    unfold extract_json
    rw [hm]

/-- C8 counterexample: on an empty profile the message software tester is
accepted by the short-name heuristic (the keyword rejection only matches a
message that is exactly one role keyword), so full_name is set and the
position fallback, gated on the absence of a name, never fires:
desired_positions stays empty. -/
theorem software_tester_counterexample :
    (heuristic_extract "software tester" emptyCandidateInfo).full_name =
      some "software tester" ∧
    (heuristic_extract "software tester" emptyCandidateInfo).desired_positions = [] ∧
    (extract_candidate_info "software tester" none emptyCandidateInfo).full_name =
      some "software tester" ∧
    (extract_candidate_info "software tester" none
        emptyCandidateInfo).desired_positions = [] := by
  refine ⟨?_, ?_, ?_, ?_⟩ <;> decide

/-- C8 (amended): the heuristic name check rejects only a trimmed message
that is exactly (case-insensitively) a single role keyword; the two-word
message software tester is therefore taken as full_name and the position
fallback does not fire, while the bare keyword tester is refused as a name
and appended as a position by the fallback. -/
theorem role_keyword_name_gate :
    extract_candidate_info "software tester" none emptyCandidateInfo =
      {emptyCandidateInfo with full_name := some "software tester"} ∧
    extract_candidate_info "tester" none emptyCandidateInfo =
      {emptyCandidateInfo with desired_positions := ["tester"]} := by
  constructor <;> decide

@[simp] lemma db_save_message_messages (s : Session) (r : String) (c : String) :
    (db_save_message s r c).messages = s.messages := by
  unfold db_save_message; (repeat' (first | split | dsimp only)) <;> rfl

@[simp] lemma db_save_message_info (s : Session) (r : String) (c : String) :
    (db_save_message s r c).candidate_info = s.candidate_info := by
  unfold db_save_message; (repeat' (first | split | dsimp only)) <;> rfl

@[simp] lemma db_save_message_phase (s : Session) (r : String) (c : String) :
    (db_save_message s r c).phase = s.phase := by
  unfold db_save_message; (repeat' (first | split | dsimp only)) <;> rfl

@[simp] lemma db_save_message_questions (s : Session) (r : String) (c : String) :
    (db_save_message s r c).technical_questions = s.technical_questions := by
  unfold db_save_message; (repeat' (first | split | dsimp only)) <;> rfl

@[simp] lemma db_save_message_index (s : Session) (r : String) (c : String) :
    (db_save_message s r c).current_question_index = s.current_question_index := by
  unfold db_save_message; (repeat' (first | split | dsimp only)) <;> rfl

@[simp] lemma db_save_message_started (s : Session) (r : String) (c : String) :
    (db_save_message s r c).conversation_started = s.conversation_started := by
  unfold db_save_message; (repeat' (first | split | dsimp only)) <;> rfl

@[simp] lemma db_save_message_lta (s : Session) (r : String) (c : String) :
    (db_save_message s r c).last_technical_answer = s.last_technical_answer := by
  unfold db_save_message; (repeat' (first | split | dsimp only)) <;> rfl

@[simp] lemma db_save_message_pending (s : Session) (r : String) (c : String) :
    (db_save_message s r c).pending_update = s.pending_update := by
  unfold db_save_message; (repeat' (first | split | dsimp only)) <;> rfl

@[simp] lemma db_save_message_ufield (s : Session) (r : String) (c : String) :
    (db_save_message s r c).update_field = s.update_field := by
  unfold db_save_message; (repeat' (first | split | dsimp only)) <;> rfl

@[simp] lemma db_save_message_cid (s : Session) (r : String) (c : String) :
    (db_save_message s r c).candidate_id = s.candidate_id := by
  unfold db_save_message; (repeat' (first | split | dsimp only)) <;> rfl

@[simp] lemma db_save_message_db_candidate (s : Session) (r : String) (c : String) :
    (db_save_message s r c).db.candidate = s.db.candidate := by
  unfold db_save_message; (repeat' (first | split | dsimp only)) <;> rfl

@[simp] lemma db_save_message_db_saved_questions (s : Session) (r : String) (c : String) :
    (db_save_message s r c).db.saved_questions = s.db.saved_questions := by
  unfold db_save_message; (repeat' (first | split | dsimp only)) <;> rfl

@[simp] lemma db_save_message_db_answers (s : Session) (r : String) (c : String) :
    (db_save_message s r c).db.answers = s.db.answers := by
  unfold db_save_message; (repeat' (first | split | dsimp only)) <;> rfl

@[simp] lemma db_save_candidate_messages (s : Session) :
    (db_save_candidate s).messages = s.messages := by
  unfold db_save_candidate; (repeat' (first | split | dsimp only)) <;> rfl

@[simp] lemma db_save_candidate_info (s : Session) :
    (db_save_candidate s).candidate_info = s.candidate_info := by
  unfold db_save_candidate; (repeat' (first | split | dsimp only)) <;> rfl

@[simp] lemma db_save_candidate_phase (s : Session) :
    (db_save_candidate s).phase = s.phase := by
  unfold db_save_candidate; (repeat' (first | split | dsimp only)) <;> rfl

@[simp] lemma db_save_candidate_questions (s : Session) :
    (db_save_candidate s).technical_questions = s.technical_questions := by
  unfold db_save_candidate; (repeat' (first | split | dsimp only)) <;> rfl

@[simp] lemma db_save_candidate_index (s : Session) :
    (db_save_candidate s).current_question_index = s.current_question_index := by
  unfold db_save_candidate; (repeat' (first | split | dsimp only)) <;> rfl

@[simp] lemma db_save_candidate_started (s : Session) :
    (db_save_candidate s).conversation_started = s.conversation_started := by
  unfold db_save_candidate; (repeat' (first | split | dsimp only)) <;> rfl

@[simp] lemma db_save_candidate_lta (s : Session) :
    (db_save_candidate s).last_technical_answer = s.last_technical_answer := by
  unfold db_save_candidate; (repeat' (first | split | dsimp only)) <;> rfl

@[simp] lemma db_save_candidate_pending (s : Session) :
    (db_save_candidate s).pending_update = s.pending_update := by
  unfold db_save_candidate; (repeat' (first | split | dsimp only)) <;> rfl

@[simp] lemma db_save_candidate_ufield (s : Session) :
    (db_save_candidate s).update_field = s.update_field := by
  unfold db_save_candidate; (repeat' (first | split | dsimp only)) <;> rfl

@[simp] lemma db_save_candidate_db_transcript (s : Session) :
    (db_save_candidate s).db.transcript = s.db.transcript := by
  unfold db_save_candidate; (repeat' (first | split | dsimp only)) <;> rfl

@[simp] lemma db_save_candidate_db_saved_questions (s : Session) :
    (db_save_candidate s).db.saved_questions = s.db.saved_questions := by
  unfold db_save_candidate; (repeat' (first | split | dsimp only)) <;> rfl

@[simp] lemma db_save_candidate_db_answers (s : Session) :
    (db_save_candidate s).db.answers = s.db.answers := by
  unfold db_save_candidate; (repeat' (first | split | dsimp only)) <;> rfl

@[simp] lemma db_save_questions_messages (s : Session) (qs : List String) :
    (db_save_questions s qs).messages = s.messages := by
  unfold db_save_questions; (repeat' (first | split | dsimp only)) <;> rfl

@[simp] lemma db_save_questions_info (s : Session) (qs : List String) :
    (db_save_questions s qs).candidate_info = s.candidate_info := by
  unfold db_save_questions; (repeat' (first | split | dsimp only)) <;> rfl

@[simp] lemma db_save_questions_phase (s : Session) (qs : List String) :
    (db_save_questions s qs).phase = s.phase := by
  unfold db_save_questions; (repeat' (first | split | dsimp only)) <;> rfl

@[simp] lemma db_save_questions_questions (s : Session) (qs : List String) :
    (db_save_questions s qs).technical_questions = s.technical_questions := by
  unfold db_save_questions; (repeat' (first | split | dsimp only)) <;> rfl

@[simp] lemma db_save_questions_index (s : Session) (qs : List String) :
    (db_save_questions s qs).current_question_index = s.current_question_index := by
  unfold db_save_questions; (repeat' (first | split | dsimp only)) <;> rfl

@[simp] lemma db_save_questions_started (s : Session) (qs : List String) :
    (db_save_questions s qs).conversation_started = s.conversation_started := by
  unfold db_save_questions; (repeat' (first | split | dsimp only)) <;> rfl

@[simp] lemma db_save_questions_lta (s : Session) (qs : List String) :
    (db_save_questions s qs).last_technical_answer = s.last_technical_answer := by
  unfold db_save_questions; (repeat' (first | split | dsimp only)) <;> rfl

@[simp] lemma db_save_questions_pending (s : Session) (qs : List String) :
    (db_save_questions s qs).pending_update = s.pending_update := by
  unfold db_save_questions; (repeat' (first | split | dsimp only)) <;> rfl

@[simp] lemma db_save_questions_ufield (s : Session) (qs : List String) :
    (db_save_questions s qs).update_field = s.update_field := by
  unfold db_save_questions; (repeat' (first | split | dsimp only)) <;> rfl

@[simp] lemma db_save_questions_cid (s : Session) (qs : List String) :
    (db_save_questions s qs).candidate_id = s.candidate_id := by
  unfold db_save_questions; (repeat' (first | split | dsimp only)) <;> rfl

@[simp] lemma db_save_questions_db_transcript (s : Session) (qs : List String) :
    (db_save_questions s qs).db.transcript = s.db.transcript := by
  unfold db_save_questions; (repeat' (first | split | dsimp only)) <;> rfl

@[simp] lemma db_save_questions_db_candidate (s : Session) (qs : List String) :
    (db_save_questions s qs).db.candidate = s.db.candidate := by
  unfold db_save_questions; (repeat' (first | split | dsimp only)) <;> rfl

@[simp] lemma db_save_questions_db_answers (s : Session) (qs : List String) :
    (db_save_questions s qs).db.answers = s.db.answers := by
  unfold db_save_questions; (repeat' (first | split | dsimp only)) <;> rfl

@[simp] lemma start_conversation_info (s : Session) :
    (start_conversation s).candidate_info = s.candidate_info := by
  unfold start_conversation; (repeat' (first | split | dsimp only)) <;> simp

@[simp] lemma start_conversation_phase (s : Session) :
    (start_conversation s).phase = s.phase := by
  unfold start_conversation; (repeat' (first | split | dsimp only)) <;> simp

@[simp] lemma start_conversation_questions (s : Session) :
    (start_conversation s).technical_questions = s.technical_questions := by
  unfold start_conversation; (repeat' (first | split | dsimp only)) <;> simp

@[simp] lemma start_conversation_index (s : Session) :
    (start_conversation s).current_question_index = s.current_question_index := by
  unfold start_conversation; (repeat' (first | split | dsimp only)) <;> simp

@[simp] lemma start_conversation_lta (s : Session) :
    (start_conversation s).last_technical_answer = s.last_technical_answer := by
  unfold start_conversation; (repeat' (first | split | dsimp only)) <;> simp

@[simp] lemma start_conversation_pending (s : Session) :
    (start_conversation s).pending_update = s.pending_update := by
  unfold start_conversation; (repeat' (first | split | dsimp only)) <;> simp

@[simp] lemma start_conversation_ufield (s : Session) :
    (start_conversation s).update_field = s.update_field := by
  unfold start_conversation; (repeat' (first | split | dsimp only)) <;> simp

@[simp] lemma start_conversation_cid (s : Session) :
    (start_conversation s).candidate_id = s.candidate_id := by
  unfold start_conversation; (repeat' (first | split | dsimp only)) <;> simp

@[simp] lemma start_conversation_db_candidate (s : Session) :
    (start_conversation s).db.candidate = s.db.candidate := by
  unfold start_conversation; (repeat' (first | split | dsimp only)) <;> simp

@[simp] lemma start_conversation_db_saved_questions (s : Session) :
    (start_conversation s).db.saved_questions = s.db.saved_questions := by
  unfold start_conversation; (repeat' (first | split | dsimp only)) <;> simp

@[simp] lemma start_conversation_db_answers (s : Session) :
    (start_conversation s).db.answers = s.db.answers := by
  unfold start_conversation; (repeat' (first | split | dsimp only)) <;> simp

@[simp] lemma flush_technical_answer_messages (s : Session) :
    (flush_technical_answer s).messages = s.messages := by
  unfold flush_technical_answer; (repeat' (first | split | dsimp only)) <;> rfl

@[simp] lemma flush_technical_answer_info (s : Session) :
    (flush_technical_answer s).candidate_info = s.candidate_info := by
  unfold flush_technical_answer; (repeat' (first | split | dsimp only)) <;> rfl

@[simp] lemma flush_technical_answer_phase (s : Session) :
    (flush_technical_answer s).phase = s.phase := by
  unfold flush_technical_answer; (repeat' (first | split | dsimp only)) <;> rfl

@[simp] lemma flush_technical_answer_questions (s : Session) :
    (flush_technical_answer s).technical_questions = s.technical_questions := by
  unfold flush_technical_answer; (repeat' (first | split | dsimp only)) <;> rfl

@[simp] lemma flush_technical_answer_index (s : Session) :
    (flush_technical_answer s).current_question_index = s.current_question_index := by
  unfold flush_technical_answer; (repeat' (first | split | dsimp only)) <;> rfl

@[simp] lemma flush_technical_answer_started (s : Session) :
    (flush_technical_answer s).conversation_started = s.conversation_started := by
  unfold flush_technical_answer; (repeat' (first | split | dsimp only)) <;> rfl

@[simp] lemma flush_technical_answer_pending (s : Session) :
    (flush_technical_answer s).pending_update = s.pending_update := by
  unfold flush_technical_answer; (repeat' (first | split | dsimp only)) <;> rfl

@[simp] lemma flush_technical_answer_ufield (s : Session) :
    (flush_technical_answer s).update_field = s.update_field := by
  unfold flush_technical_answer; (repeat' (first | split | dsimp only)) <;> rfl

@[simp] lemma flush_technical_answer_cid (s : Session) :
    (flush_technical_answer s).candidate_id = s.candidate_id := by
  unfold flush_technical_answer; (repeat' (first | split | dsimp only)) <;> rfl

@[simp] lemma flush_technical_answer_db_transcript (s : Session) :
    (flush_technical_answer s).db.transcript = s.db.transcript := by
  unfold flush_technical_answer; (repeat' (first | split | dsimp only)) <;> rfl

@[simp] lemma flush_technical_answer_db_candidate (s : Session) :
    (flush_technical_answer s).db.candidate = s.db.candidate := by
  unfold flush_technical_answer; (repeat' (first | split | dsimp only)) <;> rfl

@[simp] lemma flush_technical_answer_db_saved_questions (s : Session) :
    (flush_technical_answer s).db.saved_questions = s.db.saved_questions := by
  unfold flush_technical_answer; (repeat' (first | split | dsimp only)) <;> rfl

@[simp] lemma capture_technical_answer_messages (p : String) (s : Session) :
    (capture_technical_answer p s).messages = s.messages := by
  unfold capture_technical_answer; (repeat' (first | split | dsimp only)) <;> rfl

@[simp] lemma capture_technical_answer_info (p : String) (s : Session) :
    (capture_technical_answer p s).candidate_info = s.candidate_info := by
  unfold capture_technical_answer; (repeat' (first | split | dsimp only)) <;> rfl

@[simp] lemma capture_technical_answer_phase (p : String) (s : Session) :
    (capture_technical_answer p s).phase = s.phase := by
  unfold capture_technical_answer; (repeat' (first | split | dsimp only)) <;> rfl

@[simp] lemma capture_technical_answer_questions (p : String) (s : Session) :
    (capture_technical_answer p s).technical_questions = s.technical_questions := by
  unfold capture_technical_answer; (repeat' (first | split | dsimp only)) <;> rfl

@[simp] lemma capture_technical_answer_index (p : String) (s : Session) :
    (capture_technical_answer p s).current_question_index = s.current_question_index := by
  unfold capture_technical_answer; (repeat' (first | split | dsimp only)) <;> rfl

@[simp] lemma capture_technical_answer_started (p : String) (s : Session) :
    (capture_technical_answer p s).conversation_started = s.conversation_started := by
  unfold capture_technical_answer; (repeat' (first | split | dsimp only)) <;> rfl

@[simp] lemma capture_technical_answer_pending (p : String) (s : Session) :
    (capture_technical_answer p s).pending_update = s.pending_update := by
  unfold capture_technical_answer; (repeat' (first | split | dsimp only)) <;> rfl

@[simp] lemma capture_technical_answer_ufield (p : String) (s : Session) :
    (capture_technical_answer p s).update_field = s.update_field := by
  unfold capture_technical_answer; (repeat' (first | split | dsimp only)) <;> rfl

@[simp] lemma capture_technical_answer_cid (p : String) (s : Session) :
    (capture_technical_answer p s).candidate_id = s.candidate_id := by
  unfold capture_technical_answer; (repeat' (first | split | dsimp only)) <;> rfl

@[simp] lemma capture_technical_answer_db_transcript (p : String) (s : Session) :
    (capture_technical_answer p s).db.transcript = s.db.transcript := by
  unfold capture_technical_answer; (repeat' (first | split | dsimp only)) <;> rfl

@[simp] lemma capture_technical_answer_db_candidate (p : String) (s : Session) :
    (capture_technical_answer p s).db.candidate = s.db.candidate := by
  unfold capture_technical_answer; (repeat' (first | split | dsimp only)) <;> rfl

@[simp] lemma capture_technical_answer_db_saved_questions (p : String) (s : Session) :
    (capture_technical_answer p s).db.saved_questions = s.db.saved_questions := by
  unfold capture_technical_answer; (repeat' (first | split | dsimp only)) <;> rfl

@[simp] lemma capture_technical_answer_db_answers (p : String) (s : Session) :
    (capture_technical_answer p s).db.answers = s.db.answers := by
  unfold capture_technical_answer; (repeat' (first | split | dsimp only)) <;> rfl

@[simp] lemma db_save_candidate_db_candidate (s : Session) :
    (db_save_candidate s).db.candidate = some s.candidate_info := by
  unfold db_save_candidate; rfl

@[simp] lemma db_save_candidate_cid (s : Session) :
    (db_save_candidate s).candidate_id = some 1 := by
  unfold db_save_candidate; rfl

lemma db_save_message_transcript (s : Session) (r c : String)
    (h : s.candidate_id.isSome = true) :
    (db_save_message s r c).db.transcript = s.db.transcript ++ [(r, c)] := by
  unfold db_save_message; rw [h]; rfl

lemma start_conversation_started_noop (s : Session)
    (h : s.conversation_started = true) : start_conversation s = s := by
  unfold start_conversation; rw [h]; rfl

lemma flush_none (s : Session) (h : s.last_technical_answer = none) :
    flush_technical_answer s = s := by
  unfold flush_technical_answer; rw [h]

lemma flush_lta (s : Session) (hcid : s.candidate_id.isSome = true)
    (hlta : s.last_technical_answer ≠ some "") :
    (flush_technical_answer s).last_technical_answer = none := by
  unfold flush_technical_answer
  cases hl : s.last_technical_answer <;> cases hc : s.candidate_id <;>
    simp_all

lemma flush_answers (s : Session) (hcid : s.candidate_id.isSome = true) :
    (flush_technical_answer s).db.answers = s.db.answers ++ flushed_rows s := by
  unfold flush_technical_answer flushed_rows
  cases hl : s.last_technical_answer <;> cases hc : s.candidate_id <;>
    simp_all <;> split <;> simp_all

@[simp] lemma flushed_rows_start (s : Session) :
    flushed_rows (start_conversation s) = flushed_rows s := by
  unfold flushed_rows
  rw [start_conversation_lta, start_conversation_index]

lemma capture_lta_set (p : String) (s : Session)
    (hp : s.phase = Phase.technical_questions)
    (hcid : s.candidate_id.isSome = true)
    (hupd : is_update_request p = false)
    (hpend : s.pending_update = false) :
    (capture_technical_answer p s).last_technical_answer = some p := by
  unfold capture_technical_answer
  rw [hp, hcid, hupd, hpend]
  rfl

lemma capture_lta_update (p : String) (s : Session)
    (hupd : is_update_request p = true) :
    (capture_technical_answer p s).last_technical_answer =
      s.last_technical_answer := by
  unfold capture_technical_answer
  rw [hupd]
  (repeat' (first | split | dsimp only)) <;> simp_all

lemma capture_lta_pending (p : String) (s : Session)
    (hpend : s.pending_update = true) :
    (capture_technical_answer p s).last_technical_answer =
      s.last_technical_answer := by
  unfold capture_technical_answer
  rw [hpend]
  (repeat' (first | split | dsimp only)) <;> simp_all


/-- C4 counterexample: when the profile completes while the question
generator returns the empty list (the questions value of the LLM object was
the empty array), the transition turn aborts with IndexError at the intro
subscript before the index reset, stranding the session in the
technical-questions phase with index 0 equal to the question count 0; the
next plain answer turn then drives the index to 1, strictly past the
count — refuting both that the index never exceeds the number of generated
questions and that reaching the count flips the phase to completed on that
same turn. -/
theorem empty_question_set_overflow :
    (process_turn quietEnv "Goa" infoSession).2 = TurnOutcome.index_error ∧
    crashedSession.phase = Phase.technical_questions ∧
    crashedSession.technical_questions.length = 0 ∧
    crashedSession.current_question_index = 0 ∧
    crashedSession.pending_update = false ∧
    is_update_request "My answer is B" = false ∧
    should_end_conversation "My answer is B" = false ∧
    (process_turn quietEnv "My answer is B" crashedSession).1.current_question_index = 1 ∧
    (process_turn quietEnv "My answer is B" crashedSession).1.technical_questions.length
      = 0 := by
  refine ⟨?_, ?_, ?_, ?_, ?_, ?_, ?_, ?_, ?_⟩ <;> decide

/-- C4 (amended): while the phase is technical_questions with the question
index still below the question count — which holds from any successful
(non-crashing) transition on, but fails in the stranded empty-question-set
state — a turn whose message is neither an update-intent message nor an
end-keyword message, with no pending update, advances the index by exactly
one, never past the count, and phase becomes completed on the very turn the
index reaches the count (staying technical_questions otherwise). -/
theorem question_index_advances_once (env : TurnEnv) (prompt : String) (s : Session)
    (hp : s.phase = Phase.technical_questions)
    (hlt : s.current_question_index < s.technical_questions.length)
    (hupd : is_update_request prompt = false)
    (hpend : s.pending_update = false)
    (hend : should_end_conversation prompt = false) :
    (process_turn env prompt s).1.current_question_index = s.current_question_index + 1 ∧
    (process_turn env prompt s).1.technical_questions = s.technical_questions ∧
    (process_turn env prompt s).1.current_question_index ≤ s.technical_questions.length ∧
    ((process_turn env prompt s).1.current_question_index = s.technical_questions.length →
      (process_turn env prompt s).1.phase = Phase.completed) ∧
    ((process_turn env prompt s).1.current_question_index < s.technical_questions.length →
      (process_turn env prompt s).1.phase = Phase.technical_questions) := by
  unfold process_turn technical_turn
  simp [hend, hupd, hpend, hp]
  (repeat' split) <;> simp_all <;> omega

/-- Witness for C4: a plain answer in the three-question session at index 1
moves the index to 2 and stays in the technical-questions phase. -/
theorem question_index_advances_once_witness :
    should_end_conversation "My answer is B" = false ∧
    (process_turn quietEnv "My answer is B" tqSession).1.current_question_index =
      tqSession.current_question_index + 1 :=
  ⟨by decide,
   (question_index_advances_once quietEnv "My answer is B" tqSession (by decide)
      (by decide) (by decide) (by decide) (by decide)).1⟩


lemma tq_update_turn (env : TurnEnv) (p : String) (s : Session)
    (hp : s.phase = Phase.technical_questions)
    (hu : is_update_request p = true)
    (he : should_end_conversation p = false)
    (hcid : s.candidate_id.isSome = true)
    (hlta : s.last_technical_answer ≠ some "") :
    (process_turn env p s).1.phase = Phase.technical_questions ∧
    (process_turn env p s).1.current_question_index = s.current_question_index ∧
    (process_turn env p s).1.technical_questions = s.technical_questions ∧
    (process_turn env p s).1.pending_update = true ∧
    (process_turn env p s).1.last_technical_answer = none ∧
    (process_turn env p s).1.db.answers = s.db.answers ++ flushed_rows s ∧
    (process_turn env p s).1.candidate_info = s.candidate_info ∧
    (process_turn env p s).1.candidate_id.isSome = true := by
  unfold process_turn technical_turn
  simp [hp, hu, he, hcid, hlta, flush_lta, flush_answers, capture_lta_update]

lemma tq_pending_turn (env : TurnEnv) (p : String) (s : Session)
    (hp : s.phase = Phase.technical_questions)
    (hu : is_update_request p = false)
    (hpend : s.pending_update = true)
    (he : should_end_conversation p = false)
    (hcid : s.candidate_id.isSome = true)
    (hlta : s.last_technical_answer ≠ some "")
    (hq : s.current_question_index < s.technical_questions.length) :
    (process_turn env p s).1.phase = Phase.technical_questions ∧
    (process_turn env p s).1.current_question_index = s.current_question_index ∧
    (process_turn env p s).1.technical_questions = s.technical_questions ∧
    (process_turn env p s).1.pending_update = false ∧
    (process_turn env p s).1.update_field = none ∧
    (process_turn env p s).1.last_technical_answer = none ∧
    (process_turn env p s).1.db.answers = s.db.answers ++ flushed_rows s ∧
    (process_turn env p s).2 = TurnOutcome.reply (update_confirmed_en ++ "\n\n**" ++
      question_format_en (s.current_question_index + 1)
        s.technical_questions.length ++ "**\n" ++
      s.technical_questions.getD s.current_question_index "") := by
  unfold process_turn technical_turn
  simp [hp, hu, hpend, he, hcid, hlta, flush_lta, flush_answers, capture_lta_pending,
        List.getElem?_eq_getElem hq, List.getD_eq_getElem?_getD]

lemma extract_noop_of_complete (m : String) (ci : CandidateInfo)
    (h : ci.is_complete = true) : extract_candidate_info m none ci = ci := by
  unfold CandidateInfo.is_complete at h
  simp only [Bool.and_eq_true] at h
  obtain ⟨⟨⟨⟨⟨⟨hfn, hem⟩, hph⟩, hys⟩, hdp⟩, hloc⟩, hts⟩ := h
  unfold extract_candidate_info heuristic_extract
  rw [he_email_noop hem, he_phone_noop hph, he_years_noop hys, he_name_noop hfn,
      he_location_noop hloc, llm_merge_none,
      position_fallback_noop (by simpa using hdp)]


/-- C5 counterexample: in the stranded empty-question-set session an
update-intent turn still enters update sub-mode, but the following
update-value turn cannot re-present the pending question: the
re-presentation subscript raises IndexError and the turn produces no reply
at all, refuting the claim's re-presentation clause. -/
theorem update_value_turn_crashes :
    crashedUpdateSession.phase = Phase.technical_questions ∧
    crashedUpdateSession.pending_update = true ∧
    crashedUpdateSession.technical_questions.length = 0 ∧
    is_update_request "nevermind" = false ∧
    should_end_conversation "nevermind" = false ∧
    (process_turn quietEnv "nevermind" crashedUpdateSession).2 =
      TurnOutcome.index_error ∧
    (process_turn quietEnv "nevermind" crashedUpdateSession).1.current_question_index =
      crashedUpdateSession.current_question_index := by
  refine ⟨?_, ?_, ?_, ?_, ?_, ?_, ?_⟩ <;> decide

/-- C5 (amended): in the technical-questions phase with a candidate id, no
empty-string pending answer (chat input never produces one) and the index
below the question count, an update-intent message (update keyword plus
info keyword) leaves the question index unchanged on that turn and on the
following update-value turn, is never recorded as a technical answer (the
pending-answer slot is empty after both turns, and the only answer row the
two turns persist is the flush of the answer that was already pending
before them), and after the update-value turn the same pending question,
with the same index, is re-presented under the update-confirmed message;
with the index at the question count (the stranded empty-set state) the
re-presentation instead aborts with IndexError. -/
theorem update_intent_freezes_question (env₁ env₂ : TurnEnv) (p₁ p₂ : String)
    (s : Session)
    (hp : s.phase = Phase.technical_questions)
    (hu₁ : is_update_request p₁ = true)
    (he₁ : should_end_conversation p₁ = false)
    (hu₂ : is_update_request p₂ = false)
    (he₂ : should_end_conversation p₂ = false)
    (hcid : s.candidate_id.isSome = true)
    (hlta : s.last_technical_answer ≠ some "")
    (hq : s.current_question_index < s.technical_questions.length) :
    (process_turn env₁ p₁ s).1.current_question_index = s.current_question_index ∧
    (process_turn env₁ p₁ s).1.last_technical_answer = none ∧
    (process_turn env₁ p₁ s).1.pending_update = true ∧
    (process_turn env₂ p₂ (process_turn env₁ p₁ s).1).1.current_question_index =
      s.current_question_index ∧
    (process_turn env₂ p₂ (process_turn env₁ p₁ s).1).1.last_technical_answer = none ∧
    (process_turn env₂ p₂ (process_turn env₁ p₁ s).1).1.db.answers =
      s.db.answers ++ flushed_rows s ∧
    (process_turn env₂ p₂ (process_turn env₁ p₁ s).1).2 =
      TurnOutcome.reply (update_confirmed_en ++ "\n\n**" ++
        question_format_en (s.current_question_index + 1)
          s.technical_questions.length ++ "**\n" ++
        s.technical_questions.getD s.current_question_index "") := by
  obtain ⟨a1, a2, a3, a4, a5, a6, a7, a8⟩ := tq_update_turn env₁ p₁ s hp hu₁ he₁ hcid hlta
  have hlta' : (process_turn env₁ p₁ s).1.last_technical_answer ≠ some "" := by
    rw [a5]; simp
  have hq' : (process_turn env₁ p₁ s).1.current_question_index <
      (process_turn env₁ p₁ s).1.technical_questions.length := by
    rw [a2, a3]; exact hq
  obtain ⟨b1, b2, b3, b4, b5, b6, b7, b8⟩ :=
    tq_pending_turn env₂ p₂ (process_turn env₁ p₁ s).1 a1 hu₂ a4 he₂ a8 hlta' hq'
  have hfr : flushed_rows (process_turn env₁ p₁ s).1 = [] := by
    unfold flushed_rows; rw [a5]
  refine ⟨a2, a5, a4, ?_, b6, ?_, ?_⟩
  · rw [b2, a2]
  · rw [b7, hfr, List.append_nil, a6]
  · rw [b8, a2, a3]

/-- Witness for C5: asking to update the email in the three-question
session and then replying keeps the question index at 1 across both
turns. -/
theorem update_intent_freezes_question_witness :
    is_update_request "I want to update my email" = true ∧
    (process_turn quietEnv "nevermind"
        (process_turn quietEnv "I want to update my email" tqSession).1).1.current_question_index =
      tqSession.current_question_index :=
  ⟨by decide,
   (update_intent_freezes_question quietEnv quietEnv "I want to update my email"
      "nevermind" tqSession (by decide) (by decide) (by decide) (by decide)
      (by decide) (by decide) (by decide) (by decide)).2.2.2.1⟩

/-- C10 counterexample: in the stranded empty-question-set update sub-mode
awaiting an email, a reply without an email address is not resolved
silently: the re-presentation subscript raises IndexError after the pending
flag was cleared but before update_field is cleared, so an uncaught error
surfaces, no question is re-presented, and the session keeps update_field
set — refuting the claimed silent recovery. -/
theorem empty_set_update_crash :
    crashedUpdateSession.update_field = some "email" ∧
    crashedUpdateSession.pending_update = true ∧
    email_search "i dont know" = none ∧
    (process_turn quietEnv "i dont know" crashedUpdateSession).2 =
      TurnOutcome.index_error ∧
    (process_turn quietEnv "i dont know" crashedUpdateSession).1.pending_update =
      false ∧
    (process_turn quietEnv "i dont know" crashedUpdateSession).1.update_field =
      some "email" := by
  refine ⟨?_, ?_, ?_, ?_, ?_, ?_⟩ <;> decide

/-- C10 (amended): in update sub-mode with a known update field of email or
phone and the question index below the question count, a reply with no
usable regex match (no email match, or for phone no match of length at
least 10) leaves the whole profile unchanged when the LLM extraction also
returned nothing and the profile is complete, yet still clears the
pending-update flag and the update field and re-presents the same pending
question under the update-confirmed message — the failed update is silent;
with the index at the question count the re-presentation instead aborts
with IndexError before update_field is cleared. -/
theorem failed_update_is_silent (env : TurnEnv) (p : String) (s : Session)
    (hp : s.phase = Phase.technical_questions)
    (hu : is_update_request p = false)
    (hpend : s.pending_update = true)
    (he : should_end_conversation p = false)
    (hcid : s.candidate_id.isSome = true)
    (hlta : s.last_technical_answer ≠ some "")
    (hq : s.current_question_index < s.technical_questions.length)
    (hex : env.extracted = none)
    (hcomp : s.candidate_info.is_complete = true)
    (hf : (s.update_field = some ("email") ∧ email_search p = none) ∨
          (s.update_field = some ("phone") ∧
            (∀ m, phone_search p = some m → m.length < 10))) :
    (process_turn env p s).1.candidate_info = s.candidate_info ∧
    (process_turn env p s).1.pending_update = false ∧
    (process_turn env p s).1.update_field = none ∧
    (process_turn env p s).1.current_question_index = s.current_question_index ∧
    (process_turn env p s).1.phase = Phase.technical_questions ∧
    (process_turn env p s).2 = TurnOutcome.reply (update_confirmed_en ++ "\n\n**" ++
      question_format_en (s.current_question_index + 1)
        s.technical_questions.length ++ "**\n" ++
      s.technical_questions.getD s.current_question_index "") := by
  obtain ⟨b1, b2, b3, b4, b5, b6, b7, b8⟩ :=
    tq_pending_turn env p s hp hu hpend he hcid hlta hq
  refine ⟨?_, b4, b5, b2, b1, b8⟩
  unfold process_turn technical_turn
  rcases hf with ⟨hf1, hf2⟩ | ⟨hf1, hf2⟩
  · simp [hp, hu, hpend, he, hcid, hlta, flush_lta, capture_lta_pending, hex, hf1, hf2,
          extract_noop_of_complete _ _ hcomp, List.getElem?_eq_getElem hq]
  · cases hps : phone_search p with
    | none =>
        simp [hp, hu, hpend, he, hcid, hlta, flush_lta, capture_lta_pending, hex, hf1,
              hps, extract_noop_of_complete _ _ hcomp, List.getElem?_eq_getElem hq]
    | some m =>
        have hlen := hf2 m hps
        simp [hp, hu, hpend, he, hcid, hlta, flush_lta, capture_lta_pending, hex, hf1,
              hps, Nat.not_le.mpr hlen, extract_noop_of_complete _ _ hcomp,
              List.getElem?_eq_getElem hq]

/-- Witness for C10: a reply with no email address in it leaves the sample
profile untouched while the update sub-mode is resolved. -/
theorem failed_update_is_silent_witness :
    email_search "i dont know" = none ∧
    (process_turn quietEnv "i dont know" tqPendingSession).1.candidate_info =
      tqPendingSession.candidate_info :=
  ⟨by decide,
   (failed_update_is_silent quietEnv "i dont know" tqPendingSession (by decide)
      (by decide) (by decide) (by decide) (by decide) (by decide) (by decide)
      (by decide) (by decide) (Or.inl ⟨by decide, by decide⟩)).1⟩


/-- C6 counterexample: the end message bye in the technical-questions phase
does produce the farewell and phase completed, but phase-specific
processing has already run on it: the message is captured as the pending
answer to the current question (to be persisted as an answer row on the
next script run), which the claim rules out. -/
theorem end_message_recorded_as_answer :
    (process_turn quietEnv "bye" tqSession).1.phase = Phase.completed ∧
    (process_turn quietEnv "bye" tqSession).2 = TurnOutcome.reply farewell_en ∧
    (process_turn quietEnv "bye" tqSession).1.last_technical_answer = some "bye" := by
  refine ⟨?_, ?_, ?_⟩ <;> decide

/-- C6 (amended): every end-keyword message produces a farewell and phase
completed in every phase, before any extraction and before the phase
dispatch (profile, question index, question set and pending-update flag are
untouched); the one piece of phase-specific processing that still runs
first is the technical-questions answer capture, which records the end
message as the pending answer. -/
theorem end_keyword_completes (env : TurnEnv) (prompt : String) (s : Session)
    (hend : should_end_conversation prompt = true) :
    (process_turn env prompt s).1.phase = Phase.completed ∧
    (process_turn env prompt s).2 = TurnOutcome.reply farewell_en ∧
    (process_turn env prompt s).1.candidate_info = s.candidate_info ∧
    (process_turn env prompt s).1.current_question_index = s.current_question_index ∧
    (process_turn env prompt s).1.technical_questions = s.technical_questions ∧
    (process_turn env prompt s).1.pending_update = s.pending_update ∧
    (s.phase = Phase.technical_questions → s.candidate_id.isSome = true →
      is_update_request prompt = false → s.pending_update = false →
      (process_turn env prompt s).1.last_technical_answer = some prompt) := by
  unfold process_turn
  refine ⟨?_, ?_, ?_, ?_, ?_, ?_, ?_⟩ <;> simp [hend]
  intro h1 h2 h3 h4
  exact capture_lta_set _ _ (by simp [h1]) (by simp [h2]) h3 (by simp [h4])

/-- Witness for C6 (amended): goodbye from the mid-collection session ends
it with the farewell. -/
theorem end_keyword_completes_witness :
    should_end_conversation "ok goodbye" = true ∧
    (process_turn quietEnv "ok goodbye" infoSession).1.phase = Phase.completed :=
  ⟨by decide,
   (end_keyword_completes quietEnv "ok goodbye" infoSession (by decide)).1⟩

/-- C9 counterexample: on the very first turn the greeting and the user
message are both appended to the chat but silently dropped by
save_message_to_db, because no candidate id exists yet: after the turn the
chat holds three messages while the persisted transcript holds only the
final assistant response. -/
theorem early_messages_not_persisted :
    (process_turn quietEnv "Helen" init_session).1.messages.length = 3 ∧
    (process_turn quietEnv "Helen" init_session).1.db.transcript.length = 1 := by
  constructor <;> decide

/-- C9 (amended): once a candidate id exists, every turn persists exactly
the inbound user message followed by the turn's assistant output — one
assistant row holding the turn's reply, and none when the completed phase
answers nothing or an IndexError aborts the run before the append — and
both the extraction turns of the collection phases and the pending-update
turns of the technical phase re-persist the profile they just updated (the
latter even on the turns the re-presentation subscript then aborts, since
the save precedes the raise). -/
theorem persistence_after_first_save (env : TurnEnv) (prompt : String) (s : Session)
    (hcid : s.candidate_id.isSome = true)
    (hstart : s.conversation_started = true) :
    ((process_turn env prompt s).1.db.transcript =
        s.db.transcript ++ ("user", prompt) ::
          (match (process_turn env prompt s).2 with
           | TurnOutcome.reply r => [("assistant", r)]
           | _ => [])) ∧
    (should_end_conversation prompt = false →
      s.phase = Phase.greeting ∨ s.phase = Phase.info_gathering →
      (process_turn env prompt s).1.db.candidate =
        some (process_turn env prompt s).1.candidate_info) ∧
    (should_end_conversation prompt = false →
      s.phase = Phase.technical_questions →
      is_update_request prompt = false →
      s.pending_update = true →
      (process_turn env prompt s).1.db.candidate =
        some (process_turn env prompt s).1.candidate_info) := by
  refine ⟨?_, ?_, ?_⟩
  · unfold process_turn info_gathering_turn technical_turn
    by_cases hend : should_end_conversation prompt
    · simp [hend, hstart, start_conversation_started_noop,
            db_save_message_transcript, hcid]
    · cases hph : s.phase
      all_goals simp [hend, hph, hstart, start_conversation_started_noop,
        db_save_message_transcript, hcid]
      all_goals (repeat' split)
      all_goals simp_all [db_save_message_transcript, hcid]
  · intro hend hph
    unfold process_turn info_gathering_turn
    rcases hph with hph | hph
    all_goals simp [hend, hph, hstart, start_conversation_started_noop]
    all_goals (repeat' split)
    all_goals simp
  · intro hend hph hu hpend
    unfold process_turn technical_turn
    simp [hend, hph, hu, hpend, hstart, start_conversation_started_noop]
    (repeat' split)
    all_goals simp

/-- Witness for C9 (amended): a location answer from the mid-collection
session lands in the persisted transcript right after the stored rows,
followed by exactly the turn's assistant output. -/
theorem persistence_after_first_save_witness :
    infoSession.candidate_id.isSome = true ∧
    (process_turn quietEnv "Goa" infoSession).1.db.transcript =
      infoSession.db.transcript ++ ("user", "Goa") ::
        (match (process_turn quietEnv "Goa" infoSession).2 with
         | TurnOutcome.reply r => [("assistant", r)]
         | _ => []) :=
  ⟨by decide,
   (persistence_after_first_save quietEnv "Goa" infoSession (by decide)
      (by decide)).1⟩

end TalentScout
